import Mathlib

/-!
Verification of the openinference-rs core: a shallow embedding of the
configuration-driven redaction protocol (TraceConfig and its cascading hide
decisions), the attribute vocabulary (structured keys with their rendered
string forms), the nine span builders, and the post-hoc recording operations.
All definitions are translated from the Rust sources in
openinference-instrumentation (config.rs, span_builder.rs) and
openinference-semantic-conventions (span_kind.rs, attributes.rs, gen_ai.rs).

Modelling conventions: the process environment is an explicit map from
variable names to optional string values; the attribute sink is modelled by
the ordered list of (key, value) writes a builder or recording operation
performs; Rust f64 payloads are never computed with, only carried, and are
modelled by the rationals.
-/

/-- Placeholder value used when content is redacted, from config.rs. -/
def REDACTED : String := "__REDACTED__"

/-- Attribute values: the sink accepts strings, integers and floats (§3 of
the spec). Float payloads are carried opaquely and modelled by the
rationals. -/
inductive AttrValue where
  | str (s : String)
  | int (n : Int)
  | float (q : Rat)
deriving DecidableEq

/-- Structured attribute keys, one constructor per key of the OpenInference
vocabulary (attributes.rs) and of the GenAI vocabulary (gen_ai.rs) that the
builders and recording operations emit. Indexed keys carry their numeric
indices; the corresponding string keys are produced by the rendering
function below. -/
inductive AttrKey where
  | openinferenceSpanKind
  | llmModelName
  | llmSystem
  | llmProvider
  | llmInvocationParameters
  | llmInputMessagesRole (i : Nat)
  | llmInputMessagesContent (i : Nat)
  | llmOutputMessagesRole (i : Nat)
  | llmOutputMessagesContent (i : Nat)
  | llmToolsJsonSchema (i : Nat)
  | llmTokenCountPrompt
  | llmTokenCountCompletion
  | llmTokenCountTotal
  | embeddingModelName
  | embeddingEmbeddingsText (i : Nat)
  | toolName
  | toolDescription
  | toolParameters
  | agentName
  | rerankerModelName
  | rerankerQuery
  | rerankerTopK
  | rerankerInputDocumentsId (i : Nat)
  | rerankerInputDocumentsContent (i : Nat)
  | rerankerInputDocumentsScore (i : Nat)
  | rerankerOutputDocumentsId (i : Nat)
  | rerankerOutputDocumentsContent (i : Nat)
  | rerankerOutputDocumentsScore (i : Nat)
  | retrievalDocumentsId (i : Nat)
  | retrievalDocumentsContent (i : Nat)
  | retrievalDocumentsScore (i : Nat)
  | inputValue
  | inputMimeType
  | outputValue
  | outputMimeType
  | genAiRequestModel
  | genAiProviderName
  | genAiSystem
  | genAiRequestTemperature
  | genAiRequestTopP
  | genAiRequestTopK
  | genAiRequestMaxTokens
  | genAiRequestFrequencyPenalty
  | genAiRequestPresencePenalty
  | genAiUsageInputTokens
  | genAiUsageOutputTokens
deriving DecidableEq

/-- Rendering of a structured key to the exact attribute string of the
vocabulary, following the fixed strings and format templates of
attributes.rs and gen_ai.rs (indices are rendered in decimal, as Rust
format! does for usize). -/
def AttrKey.render : AttrKey → String
  | .openinferenceSpanKind => "openinference.span.kind"
  | .llmModelName => "llm.model_name"
  | .llmSystem => "llm.system"
  | .llmProvider => "llm.provider"
  | .llmInvocationParameters => "llm.invocation_parameters"
  | .llmInputMessagesRole i => "llm.input_messages." ++ toString i ++ ".message.role"
  | .llmInputMessagesContent i => "llm.input_messages." ++ toString i ++ ".message.content"
  | .llmOutputMessagesRole i => "llm.output_messages." ++ toString i ++ ".message.role"
  | .llmOutputMessagesContent i => "llm.output_messages." ++ toString i ++ ".message.content"
  | .llmToolsJsonSchema i => "llm.tools." ++ toString i ++ ".tool.json_schema"
  | .llmTokenCountPrompt => "llm.token_count.prompt"
  | .llmTokenCountCompletion => "llm.token_count.completion"
  | .llmTokenCountTotal => "llm.token_count.total"
  | .embeddingModelName => "embedding.model_name"
  | .embeddingEmbeddingsText i => "embedding.embeddings." ++ toString i ++ ".embedding.text"
  | .toolName => "tool.name"
  | .toolDescription => "tool.description"
  | .toolParameters => "tool.parameters"
  | .agentName => "agent.name"
  | .rerankerModelName => "reranker.model_name"
  | .rerankerQuery => "reranker.query"
  | .rerankerTopK => "reranker.top_k"
  | .rerankerInputDocumentsId i => "reranker.input_documents." ++ toString i ++ ".document.id"
  | .rerankerInputDocumentsContent i => "reranker.input_documents." ++ toString i ++ ".document.content"
  | .rerankerInputDocumentsScore i => "reranker.input_documents." ++ toString i ++ ".document.score"
  | .rerankerOutputDocumentsId i => "reranker.output_documents." ++ toString i ++ ".document.id"
  | .rerankerOutputDocumentsContent i => "reranker.output_documents." ++ toString i ++ ".document.content"
  | .rerankerOutputDocumentsScore i => "reranker.output_documents." ++ toString i ++ ".document.score"
  | .retrievalDocumentsId i => "retrieval.documents." ++ toString i ++ ".document.id"
  | .retrievalDocumentsContent i => "retrieval.documents." ++ toString i ++ ".document.content"
  | .retrievalDocumentsScore i => "retrieval.documents." ++ toString i ++ ".document.score"
  | .inputValue => "input.value"
  | .inputMimeType => "input.mime_type"
  | .outputValue => "output.value"
  | .outputMimeType => "output.mime_type"
  | .genAiRequestModel => "gen_ai.request.model"
  | .genAiProviderName => "gen_ai.provider.name"
  | .genAiSystem => "gen_ai.system"
  | .genAiRequestTemperature => "gen_ai.request.temperature"
  | .genAiRequestTopP => "gen_ai.request.top_p"
  | .genAiRequestTopK => "gen_ai.request.top_k"
  | .genAiRequestMaxTokens => "gen_ai.request.max_tokens"
  | .genAiRequestFrequencyPenalty => "gen_ai.request.frequency_penalty"
  | .genAiRequestPresencePenalty => "gen_ai.request.presence_penalty"
  | .genAiUsageInputTokens => "gen_ai.usage.input_tokens"
  | .genAiUsageOutputTokens => "gen_ai.usage.output_tokens"

/-- A key is GenAI-prefixed when its rendered string starts with the seven
characters of the literal prefix used by the GenAI vocabulary. -/
def genAiPrefixed (k : AttrKey) : Bool :=
  decide (k.render.data.take 7 = "gen_ai.".data)

/-- TraceConfig, translated field for field from config.rs. -/
structure TraceConfig where
  hide_inputs : Bool
  hide_outputs : Bool
  hide_input_messages : Bool
  hide_output_messages : Bool
  hide_input_images : Bool
  hide_input_text : Bool
  hide_output_text : Bool
  hide_llm_invocation_parameters : Bool
  hide_embedding_vectors : Bool
  hide_embeddings_vectors : Bool
  hide_embeddings_text : Bool
  hide_prompts : Bool
  hide_choices : Bool
  base64_image_max_length : Nat
  emit_gen_ai_attributes : Bool
deriving DecidableEq

/-- Default base64 image max length constant from config.rs. -/
def DEFAULT_BASE64_IMAGE_MAX_LENGTH : Nat := 32000

/-- Default TraceConfig (the Rust Default impl): maximum observability,
nothing hidden, dual emission on. -/
def TraceConfig.default : TraceConfig where
  hide_inputs := false
  hide_outputs := false
  hide_input_messages := false
  hide_output_messages := false
  hide_input_images := false
  hide_input_text := false
  hide_output_text := false
  hide_llm_invocation_parameters := false
  hide_embedding_vectors := false
  hide_embeddings_vectors := false
  hide_embeddings_text := false
  hide_prompts := false
  hide_choices := false
  base64_image_max_length := DEFAULT_BASE64_IMAGE_MAX_LENGTH
  emit_gen_ai_attributes := true

/-- Compound hide decision for input messages, from config.rs. -/
def TraceConfig.should_hide_input_messages (c : TraceConfig) : Bool :=
  c.hide_inputs || c.hide_input_messages

/-- Compound hide decision for output messages, from config.rs. -/
def TraceConfig.should_hide_output_messages (c : TraceConfig) : Bool :=
  c.hide_outputs || c.hide_output_messages

/-- Compound hide decision for input text, from config.rs. -/
def TraceConfig.should_hide_input_text (c : TraceConfig) : Bool :=
  c.hide_inputs || c.hide_input_messages || c.hide_input_text

/-- Compound hide decision for output text, from config.rs. -/
def TraceConfig.should_hide_output_text (c : TraceConfig) : Bool :=
  c.hide_outputs || c.hide_output_messages || c.hide_output_text

/-- Compound hide decision for input images, from config.rs. -/
def TraceConfig.should_hide_input_images (c : TraceConfig) : Bool :=
  c.hide_inputs || c.hide_input_messages || c.hide_input_images

/-- Compound hide decision for embedding vectors, from config.rs. -/
def TraceConfig.should_hide_embedding_vectors (c : TraceConfig) : Bool :=
  c.hide_embedding_vectors || c.hide_embeddings_vectors

/-- Compound hide decision for prompts, from config.rs. -/
def TraceConfig.should_hide_prompts (c : TraceConfig) : Bool :=
  c.hide_inputs || c.hide_prompts

/-- Compound hide decision for choices, from config.rs. -/
def TraceConfig.should_hide_choices (c : TraceConfig) : Bool :=
  c.hide_outputs || c.hide_choices

/-- The process environment, modelled as an explicit injectable map from
variable names to optionally-present string values (env::var succeeds
exactly when the variable is present). -/
def Env : Type := String → Option String

/-- Environment variable names from config.rs. -/
def ENV_HIDE_INPUTS : String := "OPENINFERENCE_HIDE_INPUTS"

def ENV_HIDE_OUTPUTS : String := "OPENINFERENCE_HIDE_OUTPUTS"

def ENV_HIDE_INPUT_MESSAGES : String := "OPENINFERENCE_HIDE_INPUT_MESSAGES"

def ENV_HIDE_OUTPUT_MESSAGES : String := "OPENINFERENCE_HIDE_OUTPUT_MESSAGES"

def ENV_HIDE_INPUT_IMAGES : String := "OPENINFERENCE_HIDE_INPUT_IMAGES"

def ENV_HIDE_INPUT_TEXT : String := "OPENINFERENCE_HIDE_INPUT_TEXT"

def ENV_HIDE_OUTPUT_TEXT : String := "OPENINFERENCE_HIDE_OUTPUT_TEXT"

def ENV_HIDE_LLM_INVOCATION_PARAMETERS : String :=
  "OPENINFERENCE_HIDE_LLM_INVOCATION_PARAMETERS"

def ENV_HIDE_EMBEDDING_VECTORS : String := "OPENINFERENCE_HIDE_EMBEDDING_VECTORS"

def ENV_HIDE_EMBEDDINGS_VECTORS : String := "OPENINFERENCE_HIDE_EMBEDDINGS_VECTORS"

def ENV_HIDE_EMBEDDINGS_TEXT : String := "OPENINFERENCE_HIDE_EMBEDDINGS_TEXT"

def ENV_HIDE_PROMPTS : String := "OPENINFERENCE_HIDE_PROMPTS"

def ENV_HIDE_CHOICES : String := "OPENINFERENCE_HIDE_CHOICES"

def ENV_BASE64_IMAGE_MAX_LENGTH : String := "OPENINFERENCE_BASE64_IMAGE_MAX_LENGTH"

/-- Character-wise lowercasing, modelling Rust to_lowercase on the ASCII
values the configuration protocol compares against. -/
def strLower (s : String) : String := ⟨s.data.map Char.toLower⟩

/-- Character-wise uppercasing, modelling Rust to_uppercase on the ASCII
canonical span-kind names. -/
def strUpper (s : String) : String := ⟨s.data.map Char.toUpper⟩

/-- Boolean environment parsing from config.rs: the present value is
lowercased and compared against true/1 and false/0; any other value, or an
absent variable, silently yields the supplied default. -/
def parse_bool_env (env : Env) (key : String) (default : Bool) : Bool :=
  match env key with
  | some val =>
    if strLower val = "true" ∨ strLower val = "1" then true
    else if strLower val = "false" ∨ strLower val = "0" then false
    else default
  | none => default

/-- Model of Rust str::parse::<usize>: an optional leading plus sign
followed by one or more ASCII digits, read in decimal, failing on any other
character, on the empty digit string, and on overflow past the 64-bit
range. -/
def parseUsize (s : String) : Option Nat :=
  let t := match s.data with
    | '+' :: rest => rest
    | cs => cs
  if t.isEmpty then none
  else if t.all Char.isDigit then
    let n := t.foldl (fun acc c => acc * 10 + (c.toNat - 48)) 0
    if n < 2 ^ 64 then some n else none
  else none

/-- Numeric environment parsing from config.rs: a present value is parsed
as usize, and an unparseable or absent value silently yields the supplied
default. -/
def parse_usize_env (env : Env) (key : String) (default : Nat) : Nat :=
  match env key with
  | some val => (parseUsize val).getD default
  | none => default

/-- TraceConfig::from_env from config.rs: load every switch from its fixed
environment variable with default false, the numeric limit with its default,
and emit_gen_ai_attributes fixed to true. -/
def TraceConfig.from_env (env : Env) : TraceConfig where
  hide_inputs := parse_bool_env env ENV_HIDE_INPUTS false
  hide_outputs := parse_bool_env env ENV_HIDE_OUTPUTS false
  hide_input_messages := parse_bool_env env ENV_HIDE_INPUT_MESSAGES false
  hide_output_messages := parse_bool_env env ENV_HIDE_OUTPUT_MESSAGES false
  hide_input_images := parse_bool_env env ENV_HIDE_INPUT_IMAGES false
  hide_input_text := parse_bool_env env ENV_HIDE_INPUT_TEXT false
  hide_output_text := parse_bool_env env ENV_HIDE_OUTPUT_TEXT false
  hide_llm_invocation_parameters :=
    parse_bool_env env ENV_HIDE_LLM_INVOCATION_PARAMETERS false
  hide_embedding_vectors := parse_bool_env env ENV_HIDE_EMBEDDING_VECTORS false
  hide_embeddings_vectors := parse_bool_env env ENV_HIDE_EMBEDDINGS_VECTORS false
  hide_embeddings_text := parse_bool_env env ENV_HIDE_EMBEDDINGS_TEXT false
  hide_prompts := parse_bool_env env ENV_HIDE_PROMPTS false
  hide_choices := parse_bool_env env ENV_HIDE_CHOICES false
  base64_image_max_length :=
    parse_usize_env env ENV_BASE64_IMAGE_MAX_LENGTH DEFAULT_BASE64_IMAGE_MAX_LENGTH
  emit_gen_ai_attributes := true

/-- TraceConfigBuilder from config.rs: a staging record where every field
is initially unset. -/
structure TraceConfigBuilder where
  hide_inputs : Option Bool := none
  hide_outputs : Option Bool := none
  hide_input_messages : Option Bool := none
  hide_output_messages : Option Bool := none
  hide_input_images : Option Bool := none
  hide_input_text : Option Bool := none
  hide_output_text : Option Bool := none
  hide_llm_invocation_parameters : Option Bool := none
  hide_embedding_vectors : Option Bool := none
  hide_embeddings_vectors : Option Bool := none
  hide_embeddings_text : Option Bool := none
  hide_prompts : Option Bool := none
  hide_choices : Option Bool := none
  base64_image_max_length : Option Nat := none
  emit_gen_ai_attributes : Option Bool := none
deriving DecidableEq

/-- The all-unset builder (the Rust derived Default). -/
def TraceConfigBuilder.empty : TraceConfigBuilder := {}

/-- TraceConfigBuilder::build from config.rs: every explicitly set field
wins over the environment-derived value for that same field (unwrap_or on
the staged option against TraceConfig::from_env). -/
def TraceConfigBuilder.build (b : TraceConfigBuilder) (env : Env) : TraceConfig :=
  let e := TraceConfig.from_env env
  { hide_inputs := b.hide_inputs.getD e.hide_inputs
    hide_outputs := b.hide_outputs.getD e.hide_outputs
    hide_input_messages := b.hide_input_messages.getD e.hide_input_messages
    hide_output_messages := b.hide_output_messages.getD e.hide_output_messages
    hide_input_images := b.hide_input_images.getD e.hide_input_images
    hide_input_text := b.hide_input_text.getD e.hide_input_text
    hide_output_text := b.hide_output_text.getD e.hide_output_text
    hide_llm_invocation_parameters :=
      b.hide_llm_invocation_parameters.getD e.hide_llm_invocation_parameters
    hide_embedding_vectors := b.hide_embedding_vectors.getD e.hide_embedding_vectors
    hide_embeddings_vectors := b.hide_embeddings_vectors.getD e.hide_embeddings_vectors
    hide_embeddings_text := b.hide_embeddings_text.getD e.hide_embeddings_text
    hide_prompts := b.hide_prompts.getD e.hide_prompts
    hide_choices := b.hide_choices.getD e.hide_choices
    base64_image_max_length := b.base64_image_max_length.getD e.base64_image_max_length
    emit_gen_ai_attributes := b.emit_gen_ai_attributes.getD e.emit_gen_ai_attributes }

/-- SpanKind from span_kind.rs: exactly nine variants. -/
inductive SpanKind where
  | Llm
  | Embedding
  | Chain
  | Tool
  | Agent
  | Retriever
  | Reranker
  | Guardrail
  | Evaluator
deriving DecidableEq

/-- SpanKind::as_str from span_kind.rs: the canonical upper-case string. -/
def SpanKind.as_str : SpanKind → String
  | .Llm => "LLM"
  | .Embedding => "EMBEDDING"
  | .Chain => "CHAIN"
  | .Tool => "TOOL"
  | .Agent => "AGENT"
  | .Retriever => "RETRIEVER"
  | .Reranker => "RERANKER"
  | .Guardrail => "GUARDRAIL"
  | .Evaluator => "EVALUATOR"

/-- SpanKind::from_str from span_kind.rs: uppercase the input, compare
against the nine canonical names in order, and report no match otherwise
(the Rust match over string literal patterns is an equality chain). -/
def SpanKind.from_str (s : String) : Option SpanKind :=
  if strUpper s = "LLM" then some .Llm
  else if strUpper s = "EMBEDDING" then some .Embedding
  else if strUpper s = "CHAIN" then some .Chain
  else if strUpper s = "TOOL" then some .Tool
  else if strUpper s = "AGENT" then some .Agent
  else if strUpper s = "RETRIEVER" then some .Retriever
  else if strUpper s = "RERANKER" then some .Reranker
  else if strUpper s = "GUARDRAIL" then some .Guardrail
  else if strUpper s = "EVALUATOR" then some .Evaluator
  else none

/-- Statement helper: the boolean value an environment string yields under
the accepted forms (case-insensitive true/1 and false/0), or none when the
string is invalid or the variable absent. -/
def boolOfStr : Option String → Option Bool
  | some s =>
    if strLower s = "true" ∨ strLower s = "1" then some true
    else if strLower s = "false" ∨ strLower s = "0" then some false
    else none
  | none => none

/-- Statement helper for C7: a resolved boolean configuration field obeys
the strict per-field precedence builder override > valid environment
value > compiled-in default (false). -/
def resolvesBoolField (staged : Option Bool) (ev : Option String) (resolved : Bool) : Prop :=
  (∀ v, staged = some v → resolved = v) ∧
  (staged = none → ∀ v, boolOfStr ev = some v → resolved = v) ∧
  (staged = none → boolOfStr ev = none → resolved = false)

/-- Statement helper for C7: a resolved numeric configuration field obeys
the strict per-field precedence builder override > parseable environment
value > compiled-in default (32,000). -/
def resolvesNatField (staged : Option Nat) (ev : Option String) (resolved : Nat) : Prop :=
  (∀ v, staged = some v → resolved = v) ∧
  (staged = none → ∀ s n, ev = some s → parseUsize s = some n → resolved = n) ∧
  (staged = none → (∀ s, ev = some s → parseUsize s = none) →
    resolved = DEFAULT_BASE64_IMAGE_MAX_LENGTH)

/-- Statement helper: a write list binds key k exactly to value v, meaning
the pair was written and every write to k carries that same value. -/
def bindsExactly (l : List (AttrKey × AttrValue)) (k : AttrKey) (v : AttrValue) : Prop :=
  (k, v) ∈ l ∧ ∀ w, (k, w) ∈ l → w = v

/-- A finalized span as seen by the external sink: the otel name the span
is opened under and the ordered list of attribute writes performed on it
(the sink applies them with set semantics, the later write winning). -/
structure BuiltSpan where
  name : String
  attrs : List (AttrKey × AttrValue)

/-- A document for reranker/retriever input and output, from
span_builder.rs. -/
structure Document where
  id : Option String
  content : String
  score : Option Rat
deriving DecidableEq

/-- Emission guarded on an optional field (the Rust if-let Some pattern):
the writes for the value when present, nothing when absent. -/
def optAttrs {β : Type} (o : Option β) (g : β → List (AttrKey × AttrValue)) :
    List (AttrKey × AttrValue) :=
  match o with
  | some x => g x
  | none => []

/-- Emission of an enumerated Rust for-loop: apply the per-element emitter
to each list element together with its zero-based position, concatenating
the writes in order. -/
def emitIndexedFrom {α : Type} (f : Nat → α → List (AttrKey × AttrValue)) :
    Nat → List α → List (AttrKey × AttrValue)
  | _, [] => []
  | i, x :: rest => f i x ++ emitIndexedFrom f (i + 1) rest

/-- The writes for one input message in LlmSpanBuilder::build: when
messages are hidden both role and content are redacted; otherwise the role
is written verbatim and the content is redacted exactly when text is
hidden. -/
def llmInputMessageEntry (hide_messages hide_text : Bool) (i : Nat) (m : String × String) :
    List (AttrKey × AttrValue) :=
  if hide_messages then
    [(.llmInputMessagesRole i, .str REDACTED), (.llmInputMessagesContent i, .str REDACTED)]
  else
    [(.llmInputMessagesRole i, .str m.1)] ++
    (if hide_text then [(.llmInputMessagesContent i, .str REDACTED)]
     else [(.llmInputMessagesContent i, .str m.2)])

/-- The writes for one document in the three document loops of
span_builder.rs: id verbatim when present, content verbatim or redacted
according to the supplied hide decision, score verbatim when present. -/
def documentEntry (idKey contentKey scoreKey : Nat → AttrKey) (hide : Bool) (i : Nat)
    (doc : Document) : List (AttrKey × AttrValue) :=
  optAttrs doc.id (fun s => [(idKey i, .str s)]) ++
  (if !hide then [(contentKey i, .str doc.content)] else [(contentKey i, .str REDACTED)]) ++
  optAttrs doc.score (fun q => [(scoreKey i, .float q)])

/-- LlmSpanBuilder, field for field from span_builder.rs; the field
defaults are those of LlmSpanBuilder::new. -/
structure LlmSpanBuilder where
  model_name : String
  provider : Option String := none
  system : Option String := none
  temperature : Option Rat := none
  top_p : Option Rat := none
  top_k : Option Int := none
  max_tokens : Option Int := none
  frequency_penalty : Option Rat := none
  presence_penalty : Option Rat := none
  input_messages : List (String × String) := []
  invocation_parameters : Option String := none
  input_value : Option String := none
  output_value : Option String := none
  tools : List String := []
  config : TraceConfig := TraceConfig.default

/-- LlmSpanBuilder::new. -/
def LlmSpanBuilder.new (model_name : String) : LlmSpanBuilder := { model_name }

/-- LlmSpanBuilder::build from span_builder.rs, write for write in source
order. -/
def LlmSpanBuilder.build (b : LlmSpanBuilder) : BuiltSpan where
  name := "llm " ++ b.model_name
  attrs :=
    [(.openinferenceSpanKind, .str SpanKind.Llm.as_str),
     (.llmModelName, .str b.model_name)] ++
    optAttrs b.provider (fun p => [(.llmProvider, .str p)]) ++
    optAttrs b.system (fun s => [(.llmSystem, .str s)]) ++
    optAttrs b.invocation_parameters (fun params =>
       if !b.config.hide_llm_invocation_parameters then
       [(.llmInvocationParameters, .str params)]
       else [(.llmInvocationParameters, .str REDACTED)]) ++
    optAttrs b.input_value (fun input =>
       if !b.config.hide_inputs then [(.inputValue, .str input)]
       else [(.inputValue, .str REDACTED)]) ++
    optAttrs b.output_value (fun output =>
       if !b.config.hide_outputs then [(.outputValue, .str output)]
       else [(.outputValue, .str REDACTED)]) ++
    (if b.input_messages.isEmpty then []
     else
       emitIndexedFrom
         (llmInputMessageEntry b.config.should_hide_input_messages
           b.config.should_hide_input_text)
         0 b.input_messages) ++
    emitIndexedFrom (fun i schema => [(.llmToolsJsonSchema i, .str schema)]) 0 b.tools ++
    (if b.config.emit_gen_ai_attributes then
       [(.genAiRequestModel, .str b.model_name)] ++
       optAttrs b.provider (fun p => [(.genAiProviderName, .str p)]) ++
       optAttrs b.system (fun s => [(.genAiSystem, .str s)]) ++
       optAttrs b.temperature (fun t => [(.genAiRequestTemperature, .float t)]) ++
       optAttrs b.top_p (fun t => [(.genAiRequestTopP, .float t)]) ++
       optAttrs b.top_k (fun t => [(.genAiRequestTopK, .int t)]) ++
       optAttrs b.max_tokens (fun t => [(.genAiRequestMaxTokens, .int t)]) ++
       optAttrs b.frequency_penalty (fun t => [(.genAiRequestFrequencyPenalty, .float t)]) ++
       optAttrs b.presence_penalty (fun t => [(.genAiRequestPresencePenalty, .float t)])
     else [])

/-- EmbeddingSpanBuilder from span_builder.rs. -/
structure EmbeddingSpanBuilder where
  model_name : String
  texts : List String := []
  input_value : Option String := none
  config : TraceConfig := TraceConfig.default

/-- EmbeddingSpanBuilder::new. -/
def EmbeddingSpanBuilder.new (model_name : String) : EmbeddingSpanBuilder := { model_name }

/-- EmbeddingSpanBuilder::build from span_builder.rs: the texts loop uses
the flat hide_embeddings_text flag. -/
def EmbeddingSpanBuilder.build (b : EmbeddingSpanBuilder) : BuiltSpan where
  name := "embedding " ++ b.model_name
  attrs :=
    [(.openinferenceSpanKind, .str SpanKind.Embedding.as_str),
     (.embeddingModelName, .str b.model_name)] ++
    emitIndexedFrom
      (fun i text =>
        if b.config.hide_embeddings_text then [(.embeddingEmbeddingsText i, .str REDACTED)]
        else [(.embeddingEmbeddingsText i, .str text)])
      0 b.texts ++
    optAttrs b.input_value (fun input =>
       if !b.config.hide_inputs then [(.inputValue, .str input)]
       else [(.inputValue, .str REDACTED)])

/-- ChainSpanBuilder from span_builder.rs. -/
structure ChainSpanBuilder where
  name : String
  input_value : Option String := none
  input_mime_type : Option String := none
  output_value : Option String := none
  output_mime_type : Option String := none
  config : TraceConfig := TraceConfig.default

/-- ChainSpanBuilder::new. -/
def ChainSpanBuilder.new (name : String) : ChainSpanBuilder := { name }

/-- ChainSpanBuilder::build from span_builder.rs; note the span is opened
under the bare chain name (info_span with otel.name bound to self.name,
with no operation-kind word prepended), unlike the other eight builders. -/
def ChainSpanBuilder.build (b : ChainSpanBuilder) : BuiltSpan where
  name := b.name
  attrs :=
    [(.openinferenceSpanKind, .str SpanKind.Chain.as_str)] ++
    optAttrs b.input_value (fun input =>
       if !b.config.hide_inputs then [(.inputValue, .str input)]
       else [(.inputValue, .str REDACTED)]) ++
    optAttrs b.input_mime_type (fun mime => [(.inputMimeType, .str mime)]) ++
    optAttrs b.output_value (fun output =>
       if !b.config.hide_outputs then [(.outputValue, .str output)]
       else [(.outputValue, .str REDACTED)]) ++
    optAttrs b.output_mime_type (fun mime => [(.outputMimeType, .str mime)])

/-- ToolSpanBuilder from span_builder.rs. -/
structure ToolSpanBuilder where
  name : String
  description : Option String := none
  parameters : Option String := none
  input_value : Option String := none
  output_value : Option String := none
  config : TraceConfig := TraceConfig.default

/-- ToolSpanBuilder::new. -/
def ToolSpanBuilder.new (name : String) : ToolSpanBuilder := { name }

/-- ToolSpanBuilder::build from span_builder.rs. -/
def ToolSpanBuilder.build (b : ToolSpanBuilder) : BuiltSpan where
  name := "tool " ++ b.name
  attrs :=
    [(.openinferenceSpanKind, .str SpanKind.Tool.as_str),
     (.toolName, .str b.name)] ++
    optAttrs b.description (fun d => [(.toolDescription, .str d)]) ++
    optAttrs b.parameters (fun p => [(.toolParameters, .str p)]) ++
    optAttrs b.input_value (fun input =>
       if !b.config.hide_inputs then [(.inputValue, .str input)]
       else [(.inputValue, .str REDACTED)]) ++
    optAttrs b.output_value (fun output =>
       if !b.config.hide_outputs then [(.outputValue, .str output)]
       else [(.outputValue, .str REDACTED)])

/-- RetrieverSpanBuilder from span_builder.rs: it stores a query and a
top_k. -/
structure RetrieverSpanBuilder where
  name : String
  query : Option String := none
  top_k : Option Int := none
  config : TraceConfig := TraceConfig.default

/-- RetrieverSpanBuilder::new. -/
def RetrieverSpanBuilder.new (name : String) : RetrieverSpanBuilder := { name }

/-- RetrieverSpanBuilder::build from span_builder.rs: only the span kind
and the query (as input.value, subject to hide_inputs) are written; the
stored top_k is not read by build. -/
def RetrieverSpanBuilder.build (b : RetrieverSpanBuilder) : BuiltSpan where
  name := "retriever " ++ b.name
  attrs :=
    [(.openinferenceSpanKind, .str SpanKind.Retriever.as_str)] ++
    optAttrs b.query (fun query =>
       if !b.config.hide_inputs then [(.inputValue, .str query)]
       else [(.inputValue, .str REDACTED)])

/-- AgentSpanBuilder from span_builder.rs. -/
structure AgentSpanBuilder where
  name : String
  input_value : Option String := none
  output_value : Option String := none
  config : TraceConfig := TraceConfig.default

/-- AgentSpanBuilder::new. -/
def AgentSpanBuilder.new (name : String) : AgentSpanBuilder := { name }

/-- AgentSpanBuilder::build from span_builder.rs. -/
def AgentSpanBuilder.build (b : AgentSpanBuilder) : BuiltSpan where
  name := "agent " ++ b.name
  attrs :=
    [(.openinferenceSpanKind, .str SpanKind.Agent.as_str),
     (.agentName, .str b.name)] ++
    optAttrs b.input_value (fun input =>
       if !b.config.hide_inputs then [(.inputValue, .str input)]
       else [(.inputValue, .str REDACTED)]) ++
    optAttrs b.output_value (fun output =>
       if !b.config.hide_outputs then [(.outputValue, .str output)]
       else [(.outputValue, .str REDACTED)])

/-- RerankerSpanBuilder from span_builder.rs. -/
structure RerankerSpanBuilder where
  model_name : String
  query : Option String := none
  top_k : Option Int := none
  input_documents : List Document := []
  config : TraceConfig := TraceConfig.default

/-- RerankerSpanBuilder::new. -/
def RerankerSpanBuilder.new (model_name : String) : RerankerSpanBuilder := { model_name }

/-- RerankerSpanBuilder::build from span_builder.rs. -/
def RerankerSpanBuilder.build (b : RerankerSpanBuilder) : BuiltSpan where
  name := "reranker " ++ b.model_name
  attrs :=
    [(.openinferenceSpanKind, .str SpanKind.Reranker.as_str),
     (.rerankerModelName, .str b.model_name)] ++
    optAttrs b.query (fun query =>
       if !b.config.hide_inputs then [(.rerankerQuery, .str query)]
       else [(.rerankerQuery, .str REDACTED)]) ++
    optAttrs b.top_k (fun k => [(.rerankerTopK, .int k)]) ++
    emitIndexedFrom
      (documentEntry .rerankerInputDocumentsId .rerankerInputDocumentsContent
        .rerankerInputDocumentsScore b.config.hide_inputs)
      0 b.input_documents

/-- GuardrailSpanBuilder from span_builder.rs. -/
structure GuardrailSpanBuilder where
  name : String
  input_value : Option String := none
  output_value : Option String := none
  config : TraceConfig := TraceConfig.default

/-- GuardrailSpanBuilder::new. -/
def GuardrailSpanBuilder.new (name : String) : GuardrailSpanBuilder := { name }

/-- GuardrailSpanBuilder::build from span_builder.rs. -/
def GuardrailSpanBuilder.build (b : GuardrailSpanBuilder) : BuiltSpan where
  name := "guardrail " ++ b.name
  attrs :=
    [(.openinferenceSpanKind, .str SpanKind.Guardrail.as_str)] ++
    optAttrs b.input_value (fun input =>
       if !b.config.hide_inputs then [(.inputValue, .str input)]
       else [(.inputValue, .str REDACTED)]) ++
    optAttrs b.output_value (fun output =>
       if !b.config.hide_outputs then [(.outputValue, .str output)]
       else [(.outputValue, .str REDACTED)])

/-- EvaluatorSpanBuilder from span_builder.rs. -/
structure EvaluatorSpanBuilder where
  name : String
  input_value : Option String := none
  output_value : Option String := none
  config : TraceConfig := TraceConfig.default

/-- EvaluatorSpanBuilder::new. -/
def EvaluatorSpanBuilder.new (name : String) : EvaluatorSpanBuilder := { name }

/-- EvaluatorSpanBuilder::build from span_builder.rs. -/
def EvaluatorSpanBuilder.build (b : EvaluatorSpanBuilder) : BuiltSpan where
  name := "evaluator " ++ b.name
  attrs :=
    [(.openinferenceSpanKind, .str SpanKind.Evaluator.as_str)] ++
    optAttrs b.input_value (fun input =>
       if !b.config.hide_inputs then [(.inputValue, .str input)]
       else [(.inputValue, .str REDACTED)]) ++
    optAttrs b.output_value (fun output =>
       if !b.config.hide_outputs then [(.outputValue, .str output)]
       else [(.outputValue, .str REDACTED)])

/-- record_token_usage from span_builder.rs: the writes it performs on an
already-open span; it takes no configuration and writes both OpenInference
token counts and GenAI usage counts on every call. -/
def record_token_usage (prompt_tokens completion_tokens : Int) :
    List (AttrKey × AttrValue) :=
  let total_tokens := prompt_tokens + completion_tokens
  [(.llmTokenCountPrompt, .int prompt_tokens),
   (.llmTokenCountCompletion, .int completion_tokens),
   (.llmTokenCountTotal, .int total_tokens),
   (.genAiUsageInputTokens, .int prompt_tokens),
   (.genAiUsageOutputTokens, .int completion_tokens)]

/-- record_output_message from span_builder.rs: the writes it performs on
an already-open span at the given index under the supplied
configuration. -/
def record_output_message (index : Nat) (role content : String) (config : TraceConfig) :
    List (AttrKey × AttrValue) :=
  if config.should_hide_output_messages then
    [(.llmOutputMessagesRole index, .str REDACTED),
     (.llmOutputMessagesContent index, .str REDACTED)]
  else
    [(.llmOutputMessagesRole index, .str role)] ++
    (if config.should_hide_output_text then
       [(.llmOutputMessagesContent index, .str REDACTED)]
     else [(.llmOutputMessagesContent index, .str content)])

/-- record_reranker_output_documents from span_builder.rs. -/
def record_reranker_output_documents (documents : List Document) (config : TraceConfig) :
    List (AttrKey × AttrValue) :=
  emitIndexedFrom
    (documentEntry .rerankerOutputDocumentsId .rerankerOutputDocumentsContent
      .rerankerOutputDocumentsScore config.hide_outputs)
    0 documents

/-- record_retrieval_documents from span_builder.rs. -/
def record_retrieval_documents (documents : List Document) (config : TraceConfig) :
    List (AttrKey × AttrValue) :=
  emitIndexedFrom
    (documentEntry .retrievalDocumentsId .retrievalDocumentsContent
      .retrievalDocumentsScore config.hide_outputs)
    0 documents

/-- C1: for every TraceConfig, each of the eight derived hide decisions
returns true iff the documented OR-expression over the flat switches from
the cascade table is true; and the cascade is one-directional: setting only
hide_input_text leaves should_hide_prompts false, and setting only
hide_input_messages leaves should_hide_prompts false. -/
theorem c1_cascade_decisions :
    (∀ c : TraceConfig,
      (c.should_hide_input_messages = (c.hide_inputs || c.hide_input_messages)) ∧
      (c.should_hide_output_messages = (c.hide_outputs || c.hide_output_messages)) ∧
      (c.should_hide_input_text =
        (c.hide_inputs || c.hide_input_messages || c.hide_input_text)) ∧
      (c.should_hide_output_text =
        (c.hide_outputs || c.hide_output_messages || c.hide_output_text)) ∧
      (c.should_hide_input_images =
        (c.hide_inputs || c.hide_input_messages || c.hide_input_images)) ∧
      (c.should_hide_embedding_vectors =
        (c.hide_embedding_vectors || c.hide_embeddings_vectors)) ∧
      (c.should_hide_prompts = (c.hide_inputs || c.hide_prompts)) ∧
      (c.should_hide_choices = (c.hide_outputs || c.hide_choices))) ∧
    ({ TraceConfig.default with hide_input_text := true }).should_hide_prompts = false ∧
    ({ TraceConfig.default with hide_input_messages := true }).should_hide_prompts = false := by
  exact ⟨fun c => ⟨rfl, rfl, rfl, rfl, rfl, rfl, rfl, rfl⟩, rfl, rfl⟩

/-- Resolution of one boolean field through getD against parse_bool_env
obeys the three-tier precedence of the configuration spec. -/
theorem resolves_parse_bool (staged : Option Bool) (env : Env) (key : String) :
    resolvesBoolField staged (env key) (staged.getD (parse_bool_env env key false)) := by
  refine ⟨fun v h => by rw [h]; rfl, ?_, ?_⟩
  · intro h v hv
    subst h
    simp only [Option.getD_none]
    unfold parse_bool_env
    cases he : env key with
    | none => rw [he] at hv; simp [boolOfStr] at hv
    | some s =>
      rw [he] at hv
      simp only [boolOfStr] at hv
      show (if strLower s = "true" ∨ strLower s = "1" then true
        else if strLower s = "false" ∨ strLower s = "0" then false else false) = v
      split_ifs at hv ⊢ with h1 h2
      · exact Option.some.inj hv
      · exact Option.some.inj hv
  · intro h hn
    subst h
    simp only [Option.getD_none]
    unfold parse_bool_env
    cases he : env key with
    | none => rfl
    | some s =>
      rw [he] at hn
      simp only [boolOfStr] at hn
      show (if strLower s = "true" ∨ strLower s = "1" then true
        else if strLower s = "false" ∨ strLower s = "0" then false else false) = false
      split_ifs at hn ⊢ with h1 h2
      · rfl

/-- Resolution of the numeric field through getD against parse_usize_env
obeys the three-tier precedence of the configuration spec. -/
theorem resolves_parse_usize (staged : Option Nat) (env : Env) (key : String) :
    resolvesNatField staged (env key)
      (staged.getD (parse_usize_env env key DEFAULT_BASE64_IMAGE_MAX_LENGTH)) := by
  refine ⟨fun v h => by rw [h]; rfl, ?_, ?_⟩
  · intro h s n hs hn
    subst h
    simp only [Option.getD_none]
    unfold parse_usize_env
    rw [hs]
    show (parseUsize s).getD DEFAULT_BASE64_IMAGE_MAX_LENGTH = n
    rw [hn]
    rfl
  · intro h hall
    subst h
    simp only [Option.getD_none]
    unfold parse_usize_env
    cases he : env key with
    | none => rfl
    | some s =>
      show (parseUsize s).getD DEFAULT_BASE64_IMAGE_MAX_LENGTH =
        DEFAULT_BASE64_IMAGE_MAX_LENGTH
      rw [hall s he]
      rfl

/-- Per-field non-interference for boolean resolution: the resolved value
depends only on the staged option and the value of the one corresponding
environment variable. -/
theorem getD_parse_bool_congr (o o₂ : Option Bool) (env env₂ : Env) (key : String)
    (h1 : o = o₂) (h2 : env key = env₂ key) :
    o.getD (parse_bool_env env key false) = o₂.getD (parse_bool_env env₂ key false) := by
  subst h1
  unfold parse_bool_env
  rw [h2]

/-- Per-field non-interference for numeric resolution. -/
theorem getD_parse_usize_congr (o o₂ : Option Nat) (env env₂ : Env) (key : String)
    (h1 : o = o₂) (h2 : env key = env₂ key) :
    o.getD (parse_usize_env env key DEFAULT_BASE64_IMAGE_MAX_LENGTH) =
      o₂.getD (parse_usize_env env₂ key DEFAULT_BASE64_IMAGE_MAX_LENGTH) := by
  subst h1
  unfold parse_usize_env
  rw [h2]

/-- Projection of the built configuration at the emit flag. -/
theorem build_emit_eq (b : TraceConfigBuilder) (env : Env) :
    (b.build env).emit_gen_ai_attributes = b.emit_gen_ai_attributes.getD true := rfl

/-- C7: configuration resolution is strictly per-field and strictly
ordered: every field of the built TraceConfig holds the builder value when
explicitly set, otherwise the valid environment value, otherwise the
compiled-in default; and resolving one field never reads another field of
the builder or another environment variable (the non-interference block at
the end). -/
theorem c7_precedence_per_field :
    ∀ (b : TraceConfigBuilder) (env : Env),
      resolvesBoolField b.hide_inputs (env ENV_HIDE_INPUTS) ((b.build env).hide_inputs) ∧
      resolvesBoolField b.hide_outputs (env ENV_HIDE_OUTPUTS) ((b.build env).hide_outputs) ∧
      resolvesBoolField b.hide_input_messages (env ENV_HIDE_INPUT_MESSAGES)
        ((b.build env).hide_input_messages) ∧
      resolvesBoolField b.hide_output_messages (env ENV_HIDE_OUTPUT_MESSAGES)
        ((b.build env).hide_output_messages) ∧
      resolvesBoolField b.hide_input_images (env ENV_HIDE_INPUT_IMAGES)
        ((b.build env).hide_input_images) ∧
      resolvesBoolField b.hide_input_text (env ENV_HIDE_INPUT_TEXT)
        ((b.build env).hide_input_text) ∧
      resolvesBoolField b.hide_output_text (env ENV_HIDE_OUTPUT_TEXT)
        ((b.build env).hide_output_text) ∧
      resolvesBoolField b.hide_llm_invocation_parameters
        (env ENV_HIDE_LLM_INVOCATION_PARAMETERS)
        ((b.build env).hide_llm_invocation_parameters) ∧
      resolvesBoolField b.hide_embedding_vectors (env ENV_HIDE_EMBEDDING_VECTORS)
        ((b.build env).hide_embedding_vectors) ∧
      resolvesBoolField b.hide_embeddings_vectors (env ENV_HIDE_EMBEDDINGS_VECTORS)
        ((b.build env).hide_embeddings_vectors) ∧
      resolvesBoolField b.hide_embeddings_text (env ENV_HIDE_EMBEDDINGS_TEXT)
        ((b.build env).hide_embeddings_text) ∧
      resolvesBoolField b.hide_prompts (env ENV_HIDE_PROMPTS) ((b.build env).hide_prompts) ∧
      resolvesBoolField b.hide_choices (env ENV_HIDE_CHOICES) ((b.build env).hide_choices) ∧
      resolvesNatField b.base64_image_max_length (env ENV_BASE64_IMAGE_MAX_LENGTH)
        ((b.build env).base64_image_max_length) ∧
      (∀ v, b.emit_gen_ai_attributes = some v → (b.build env).emit_gen_ai_attributes = v) ∧
      (b.emit_gen_ai_attributes = none → (b.build env).emit_gen_ai_attributes = true) ∧
      (∀ (b₂ : TraceConfigBuilder) (env₂ : Env),
        (b.hide_inputs = b₂.hide_inputs → env ENV_HIDE_INPUTS = env₂ ENV_HIDE_INPUTS →
          (b.build env).hide_inputs = (b₂.build env₂).hide_inputs) ∧
        (b.hide_outputs = b₂.hide_outputs → env ENV_HIDE_OUTPUTS = env₂ ENV_HIDE_OUTPUTS →
          (b.build env).hide_outputs = (b₂.build env₂).hide_outputs) ∧
        (b.hide_input_messages = b₂.hide_input_messages →
          env ENV_HIDE_INPUT_MESSAGES = env₂ ENV_HIDE_INPUT_MESSAGES →
          (b.build env).hide_input_messages = (b₂.build env₂).hide_input_messages) ∧
        (b.hide_output_messages = b₂.hide_output_messages →
          env ENV_HIDE_OUTPUT_MESSAGES = env₂ ENV_HIDE_OUTPUT_MESSAGES →
          (b.build env).hide_output_messages = (b₂.build env₂).hide_output_messages) ∧
        (b.hide_input_images = b₂.hide_input_images →
          env ENV_HIDE_INPUT_IMAGES = env₂ ENV_HIDE_INPUT_IMAGES →
          (b.build env).hide_input_images = (b₂.build env₂).hide_input_images) ∧
        (b.hide_input_text = b₂.hide_input_text →
          env ENV_HIDE_INPUT_TEXT = env₂ ENV_HIDE_INPUT_TEXT →
          (b.build env).hide_input_text = (b₂.build env₂).hide_input_text) ∧
        (b.hide_output_text = b₂.hide_output_text →
          env ENV_HIDE_OUTPUT_TEXT = env₂ ENV_HIDE_OUTPUT_TEXT →
          (b.build env).hide_output_text = (b₂.build env₂).hide_output_text) ∧
        (b.hide_llm_invocation_parameters = b₂.hide_llm_invocation_parameters →
          env ENV_HIDE_LLM_INVOCATION_PARAMETERS = env₂ ENV_HIDE_LLM_INVOCATION_PARAMETERS →
          (b.build env).hide_llm_invocation_parameters =
            (b₂.build env₂).hide_llm_invocation_parameters) ∧
        (b.hide_embedding_vectors = b₂.hide_embedding_vectors →
          env ENV_HIDE_EMBEDDING_VECTORS = env₂ ENV_HIDE_EMBEDDING_VECTORS →
          (b.build env).hide_embedding_vectors = (b₂.build env₂).hide_embedding_vectors) ∧
        (b.hide_embeddings_vectors = b₂.hide_embeddings_vectors →
          env ENV_HIDE_EMBEDDINGS_VECTORS = env₂ ENV_HIDE_EMBEDDINGS_VECTORS →
          (b.build env).hide_embeddings_vectors = (b₂.build env₂).hide_embeddings_vectors) ∧
        (b.hide_embeddings_text = b₂.hide_embeddings_text →
          env ENV_HIDE_EMBEDDINGS_TEXT = env₂ ENV_HIDE_EMBEDDINGS_TEXT →
          (b.build env).hide_embeddings_text = (b₂.build env₂).hide_embeddings_text) ∧
        (b.hide_prompts = b₂.hide_prompts → env ENV_HIDE_PROMPTS = env₂ ENV_HIDE_PROMPTS →
          (b.build env).hide_prompts = (b₂.build env₂).hide_prompts) ∧
        (b.hide_choices = b₂.hide_choices → env ENV_HIDE_CHOICES = env₂ ENV_HIDE_CHOICES →
          (b.build env).hide_choices = (b₂.build env₂).hide_choices) ∧
        (b.base64_image_max_length = b₂.base64_image_max_length →
          env ENV_BASE64_IMAGE_MAX_LENGTH = env₂ ENV_BASE64_IMAGE_MAX_LENGTH →
          (b.build env).base64_image_max_length = (b₂.build env₂).base64_image_max_length) ∧
        (b.emit_gen_ai_attributes = b₂.emit_gen_ai_attributes →
          (b.build env).emit_gen_ai_attributes = (b₂.build env₂).emit_gen_ai_attributes)) := by
  intro b env
  refine ⟨resolves_parse_bool _ env ENV_HIDE_INPUTS,
    resolves_parse_bool _ env ENV_HIDE_OUTPUTS,
    resolves_parse_bool _ env ENV_HIDE_INPUT_MESSAGES,
    resolves_parse_bool _ env ENV_HIDE_OUTPUT_MESSAGES,
    resolves_parse_bool _ env ENV_HIDE_INPUT_IMAGES,
    resolves_parse_bool _ env ENV_HIDE_INPUT_TEXT,
    resolves_parse_bool _ env ENV_HIDE_OUTPUT_TEXT,
    resolves_parse_bool _ env ENV_HIDE_LLM_INVOCATION_PARAMETERS,
    resolves_parse_bool _ env ENV_HIDE_EMBEDDING_VECTORS,
    resolves_parse_bool _ env ENV_HIDE_EMBEDDINGS_VECTORS,
    resolves_parse_bool _ env ENV_HIDE_EMBEDDINGS_TEXT,
    resolves_parse_bool _ env ENV_HIDE_PROMPTS,
    resolves_parse_bool _ env ENV_HIDE_CHOICES,
    resolves_parse_usize _ env ENV_BASE64_IMAGE_MAX_LENGTH,
    fun v h => by rw [build_emit_eq, h]; rfl,
    fun h => by rw [build_emit_eq, h]; rfl,
    fun b₂ env₂ =>
      ⟨fun h1 h2 => getD_parse_bool_congr _ _ env env₂ _ h1 h2,
       fun h1 h2 => getD_parse_bool_congr _ _ env env₂ _ h1 h2,
       fun h1 h2 => getD_parse_bool_congr _ _ env env₂ _ h1 h2,
       fun h1 h2 => getD_parse_bool_congr _ _ env env₂ _ h1 h2,
       fun h1 h2 => getD_parse_bool_congr _ _ env env₂ _ h1 h2,
       fun h1 h2 => getD_parse_bool_congr _ _ env env₂ _ h1 h2,
       fun h1 h2 => getD_parse_bool_congr _ _ env env₂ _ h1 h2,
       fun h1 h2 => getD_parse_bool_congr _ _ env env₂ _ h1 h2,
       fun h1 h2 => getD_parse_bool_congr _ _ env env₂ _ h1 h2,
       fun h1 h2 => getD_parse_bool_congr _ _ env env₂ _ h1 h2,
       fun h1 h2 => getD_parse_bool_congr _ _ env env₂ _ h1 h2,
       fun h1 h2 => getD_parse_bool_congr _ _ env env₂ _ h1 h2,
       fun h1 h2 => getD_parse_bool_congr _ _ env env₂ _ h1 h2,
       fun h1 h2 => getD_parse_usize_congr _ _ env env₂ _ h1 h2,
       fun h1 => by rw [build_emit_eq, build_emit_eq, h1]⟩⟩

/-- Witness for C7 at a concrete builder and environment: the builder
override false beats the environment value true for hide_inputs, the
environment value true is taken for the unset hide_outputs, and the unset
hide_prompts with no environment variable falls back to the default. -/
theorem c7_precedence_per_field_witness :
    (({ TraceConfigBuilder.empty with hide_inputs := some false }).build
      (fun k => if k = ENV_HIDE_INPUTS ∨ k = ENV_HIDE_OUTPUTS then some "true" else none)).hide_inputs
        = false ∧
    (({ TraceConfigBuilder.empty with hide_inputs := some false }).build
      (fun k => if k = ENV_HIDE_INPUTS ∨ k = ENV_HIDE_OUTPUTS then some "true" else none)).hide_outputs
        = true ∧
    (({ TraceConfigBuilder.empty with hide_inputs := some false }).build
      (fun k => if k = ENV_HIDE_INPUTS ∨ k = ENV_HIDE_OUTPUTS then some "true" else none)).hide_prompts
        = false := by
  refine ⟨?_, ?_, ?_⟩
  · exact (c7_precedence_per_field { TraceConfigBuilder.empty with hide_inputs := some false }
      (fun k => if k = ENV_HIDE_INPUTS ∨ k = ENV_HIDE_OUTPUTS then some "true" else none)).1.1
      false rfl
  · exact (c7_precedence_per_field { TraceConfigBuilder.empty with hide_inputs := some false }
      (fun k => if k = ENV_HIDE_INPUTS ∨ k = ENV_HIDE_OUTPUTS then some "true" else none)).2.1.2.1
      rfl true (by decide)
  · exact (c7_precedence_per_field { TraceConfigBuilder.empty with hide_inputs := some false }
      (fun k => if k = ENV_HIDE_INPUTS ∨ k = ENV_HIDE_OUTPUTS then some "true" else none
        )).2.2.2.2.2.2.2.2.2.2.2.1.2.2 rfl (by decide)

/-- C8: environment construction is total and fail-open. A present boolean
value equal (case-insensitively) to true/1 yields true and false/0 yields
false; any other present value and an absent variable yield the default
false; a present numeric value parses as usize, and an unparseable or
absent value yields the default 32,000; from_env wires every switch to its
variable this way with emit_gen_ai_attributes fixed to true, and the
default construction has every switch false, the limit 32,000 and dual
emission on. Every operation involved is a total function, so no
environment value can abort construction. -/
theorem c8_env_fail_open :
    (∀ (env : Env) (key : String) (s : String), env key = some s →
      ((strLower s = "true" ∨ strLower s = "1") → parse_bool_env env key false = true) ∧
      ((strLower s = "false" ∨ strLower s = "0") → parse_bool_env env key false = false) ∧
      (¬(strLower s = "true" ∨ strLower s = "1") →
        ¬(strLower s = "false" ∨ strLower s = "0") →
        parse_bool_env env key false = false)) ∧
    (∀ (env : Env) (key : String), env key = none → parse_bool_env env key false = false) ∧
    (∀ (env : Env) (key : String) (s : String) (n : Nat), env key = some s →
      parseUsize s = some n →
      parse_usize_env env key DEFAULT_BASE64_IMAGE_MAX_LENGTH = n) ∧
    (∀ (env : Env) (key : String) (s : String), env key = some s → parseUsize s = none →
      parse_usize_env env key DEFAULT_BASE64_IMAGE_MAX_LENGTH =
        DEFAULT_BASE64_IMAGE_MAX_LENGTH) ∧
    (∀ (env : Env) (key : String), env key = none →
      parse_usize_env env key DEFAULT_BASE64_IMAGE_MAX_LENGTH =
        DEFAULT_BASE64_IMAGE_MAX_LENGTH) ∧
    (∀ env : Env,
      (TraceConfig.from_env env).hide_inputs = parse_bool_env env ENV_HIDE_INPUTS false ∧
      (TraceConfig.from_env env).hide_outputs = parse_bool_env env ENV_HIDE_OUTPUTS false ∧
      (TraceConfig.from_env env).hide_input_messages =
        parse_bool_env env ENV_HIDE_INPUT_MESSAGES false ∧
      (TraceConfig.from_env env).hide_output_messages =
        parse_bool_env env ENV_HIDE_OUTPUT_MESSAGES false ∧
      (TraceConfig.from_env env).hide_input_images =
        parse_bool_env env ENV_HIDE_INPUT_IMAGES false ∧
      (TraceConfig.from_env env).hide_input_text =
        parse_bool_env env ENV_HIDE_INPUT_TEXT false ∧
      (TraceConfig.from_env env).hide_output_text =
        parse_bool_env env ENV_HIDE_OUTPUT_TEXT false ∧
      (TraceConfig.from_env env).hide_llm_invocation_parameters =
        parse_bool_env env ENV_HIDE_LLM_INVOCATION_PARAMETERS false ∧
      (TraceConfig.from_env env).hide_embedding_vectors =
        parse_bool_env env ENV_HIDE_EMBEDDING_VECTORS false ∧
      (TraceConfig.from_env env).hide_embeddings_vectors =
        parse_bool_env env ENV_HIDE_EMBEDDINGS_VECTORS false ∧
      (TraceConfig.from_env env).hide_embeddings_text =
        parse_bool_env env ENV_HIDE_EMBEDDINGS_TEXT false ∧
      (TraceConfig.from_env env).hide_prompts = parse_bool_env env ENV_HIDE_PROMPTS false ∧
      (TraceConfig.from_env env).hide_choices = parse_bool_env env ENV_HIDE_CHOICES false ∧
      (TraceConfig.from_env env).base64_image_max_length =
        parse_usize_env env ENV_BASE64_IMAGE_MAX_LENGTH DEFAULT_BASE64_IMAGE_MAX_LENGTH ∧
      (TraceConfig.from_env env).emit_gen_ai_attributes = true) ∧
    (TraceConfig.default.hide_inputs = false ∧
      TraceConfig.default.hide_outputs = false ∧
      TraceConfig.default.hide_input_messages = false ∧
      TraceConfig.default.hide_output_messages = false ∧
      TraceConfig.default.hide_input_images = false ∧
      TraceConfig.default.hide_input_text = false ∧
      TraceConfig.default.hide_output_text = false ∧
      TraceConfig.default.hide_llm_invocation_parameters = false ∧
      TraceConfig.default.hide_embedding_vectors = false ∧
      TraceConfig.default.hide_embeddings_vectors = false ∧
      TraceConfig.default.hide_embeddings_text = false ∧
      TraceConfig.default.hide_prompts = false ∧
      TraceConfig.default.hide_choices = false ∧
      TraceConfig.default.base64_image_max_length = 32000 ∧
      TraceConfig.default.emit_gen_ai_attributes = true) := by
  refine ⟨?_, ?_, ?_, ?_, ?_, ?_, ?_⟩
  · intro env key s hs
    refine ⟨fun h => ?_, fun h => ?_, fun h1 h2 => ?_⟩
    · unfold parse_bool_env
      rw [hs]
      simp only [if_pos h]
    · unfold parse_bool_env
      rw [hs]
      have h1 : ¬(strLower s = "true" ∨ strLower s = "1") := by
        rcases h with h | h <;> rw [h] <;> decide
      simp only [if_neg h1, if_pos h]
    · unfold parse_bool_env
      rw [hs]
      simp only [if_neg h1, if_neg h2]
  · intro env key h
    unfold parse_bool_env
    rw [h]
  · intro env key s n hs hn
    unfold parse_usize_env
    rw [hs]
    show (parseUsize s).getD DEFAULT_BASE64_IMAGE_MAX_LENGTH = n
    rw [hn]
    rfl
  · intro env key s hs hn
    unfold parse_usize_env
    rw [hs]
    show (parseUsize s).getD DEFAULT_BASE64_IMAGE_MAX_LENGTH = DEFAULT_BASE64_IMAGE_MAX_LENGTH
    rw [hn]
    rfl
  · intro env key h
    unfold parse_usize_env
    rw [h]
  · exact fun env => ⟨rfl, rfl, rfl, rfl, rfl, rfl, rfl, rfl, rfl, rfl, rfl, rfl, rfl, rfl, rfl⟩
  · exact ⟨rfl, rfl, rfl, rfl, rfl, rfl, rfl, rfl, rfl, rfl, rfl, rfl, rfl, rfl, rfl⟩

/-- Witness for C8 at concrete environments: a case-insensitive TRUE yields
true, 0 yields false, an invalid boolean yields the default false, an
invalid number yields the default 32,000, a valid number is taken, and an
absent numeric variable yields the default. -/
theorem c8_env_fail_open_witness :
    parse_bool_env (fun _ => some "TRUE") ENV_HIDE_INPUTS false = true ∧
    parse_bool_env (fun _ => some "0") ENV_HIDE_INPUTS false = false ∧
    parse_bool_env (fun _ => some "not_a_bool") ENV_HIDE_INPUTS false = false ∧
    parse_usize_env (fun _ => some "not_a_number") ENV_BASE64_IMAGE_MAX_LENGTH
      DEFAULT_BASE64_IMAGE_MAX_LENGTH = DEFAULT_BASE64_IMAGE_MAX_LENGTH ∧
    parse_usize_env (fun _ => some "16000") ENV_BASE64_IMAGE_MAX_LENGTH
      DEFAULT_BASE64_IMAGE_MAX_LENGTH = 16000 ∧
    parse_usize_env (fun _ => none) ENV_BASE64_IMAGE_MAX_LENGTH
      DEFAULT_BASE64_IMAGE_MAX_LENGTH = DEFAULT_BASE64_IMAGE_MAX_LENGTH := by
  refine ⟨?_, ?_, ?_, ?_, ?_, ?_⟩
  · exact ((c8_env_fail_open.1 (fun _ => some "TRUE") ENV_HIDE_INPUTS "TRUE" rfl).1
      (by decide))
  · exact ((c8_env_fail_open.1 (fun _ => some "0") ENV_HIDE_INPUTS "0" rfl).2.1
      (by decide))
  · exact ((c8_env_fail_open.1 (fun _ => some "not_a_bool") ENV_HIDE_INPUTS "not_a_bool"
      rfl).2.2 (by decide) (by decide))
  · exact (c8_env_fail_open.2.2.2.1 (fun _ => some "not_a_number")
      ENV_BASE64_IMAGE_MAX_LENGTH "not_a_number" rfl (by decide))
  · exact (c8_env_fail_open.2.2.1 (fun _ => some "16000")
      ENV_BASE64_IMAGE_MAX_LENGTH "16000" 16000 rfl (by decide))
  · exact (c8_env_fail_open.2.2.2.2.1 (fun _ => none) ENV_BASE64_IMAGE_MAX_LENGTH rfl)

/-- C9: SpanKind parsing is a case-insensitive inverse of the canonical
string: parsing the canonical string of each of the nine variants returns
that variant; parsing any case variant (a string whose character-wise
uppercasing equals a canonical name) returns the matching variant; and
parsing any string that uppercases to none of the nine names returns none
(a reported no-match, never a fatal error, since from_str is total). -/
theorem c9_span_kind_from_str :
    (∀ k : SpanKind, SpanKind.from_str k.as_str = some k) ∧
    (∀ (s : String) (k : SpanKind), strUpper s = k.as_str → SpanKind.from_str s = some k) ∧
    (∀ s : String, (∀ k : SpanKind, strUpper s ≠ k.as_str) → SpanKind.from_str s = none) := by
  refine ⟨fun k => by cases k <;> decide, ?_, ?_⟩
  · intro s k h
    cases k <;>
      (simp only [SpanKind.as_str] at h
       unfold SpanKind.from_str
       rw [h]
       decide)
  · intro s h
    unfold SpanKind.from_str
    rw [if_neg (show strUpper s ≠ "LLM" from h .Llm),
      if_neg (show strUpper s ≠ "EMBEDDING" from h .Embedding),
      if_neg (show strUpper s ≠ "CHAIN" from h .Chain),
      if_neg (show strUpper s ≠ "TOOL" from h .Tool),
      if_neg (show strUpper s ≠ "AGENT" from h .Agent),
      if_neg (show strUpper s ≠ "RETRIEVER" from h .Retriever),
      if_neg (show strUpper s ≠ "RERANKER" from h .Reranker),
      if_neg (show strUpper s ≠ "GUARDRAIL" from h .Guardrail),
      if_neg (show strUpper s ≠ "EVALUATOR" from h .Evaluator)]

/-- Witness for C9: parsing the mixed-case variant Llm yields the Llm kind,
and parsing an unrecognized string yields none. -/
theorem c9_span_kind_from_str_witness :
    SpanKind.from_str "Llm" = some SpanKind.Llm ∧ SpanKind.from_str "invalid" = none := by
  refine ⟨?_, ?_⟩
  · exact c9_span_kind_from_str.2.1 "Llm" SpanKind.Llm (by decide)
  · exact c9_span_kind_from_str.2.2 "invalid" (by intro k; cases k <;> decide)

/-- Membership in an optional-field emission. -/
theorem mem_optAttrs {β : Type} (o : Option β) (g : β → List (AttrKey × AttrValue))
    (p : AttrKey × AttrValue) :
    p ∈ optAttrs o g ↔ ∃ x, o = some x ∧ p ∈ g x := by
  cases o <;> simp [optAttrs]

/-- Membership in an enumerated loop emission: exactly the writes of the
per-element emitter at some position, offset by the starting index. -/
theorem mem_emitIndexedFrom {α : Type} (f : Nat → α → List (AttrKey × AttrValue))
    (i0 : Nat) (xs : List α) (p : AttrKey × AttrValue) :
    p ∈ emitIndexedFrom f i0 xs ↔
      ∃ j, ∃ h : j < xs.length, p ∈ f (i0 + j) (xs.get ⟨j, h⟩) := by
  induction xs generalizing i0 with
  | nil => simp [emitIndexedFrom]
  | cons x rest ih =>
    simp only [emitIndexedFrom, List.mem_append, ih]
    constructor
    · rintro (hp | ⟨j, hj, hp⟩)
      · exact ⟨0, by simp, by simpa using hp⟩
      · refine ⟨j + 1, by simpa using Nat.succ_lt_succ hj, ?_⟩
        have he : i0 + 1 + j = i0 + (j + 1) := by omega
        rw [he] at hp
        simpa using hp
    · rintro ⟨j, hj, hp⟩
      cases j with
      | zero => exact Or.inl (by simpa using hp)
      | succ j =>
        refine Or.inr ⟨j, by simpa using Nat.lt_of_succ_lt_succ hj, ?_⟩
        have he : i0 + 1 + j = i0 + (j + 1) := by omega
        rw [he]
        simpa using hp

/-- The emptiness guard around a message loop changes nothing. -/
theorem emitIndexedFrom_guard {α : Type} (f : Nat → α → List (AttrKey × AttrValue))
    (xs : List α) :
    (if xs.isEmpty then [] else emitIndexedFrom f 0 xs) = emitIndexedFrom f 0 xs := by
  cases xs <;> rfl

/-- Filtering distributes over an enumerated loop emission. -/
theorem filter_emitIndexedFrom {α : Type} (q : AttrKey × AttrValue → Bool)
    (f : Nat → α → List (AttrKey × AttrValue)) (i0 : Nat) (xs : List α) :
    (emitIndexedFrom f i0 xs).filter q =
      emitIndexedFrom (fun i x => (f i x).filter q) i0 xs := by
  induction xs generalizing i0 with
  | nil => rfl
  | cons x rest ih => simp [emitIndexedFrom, List.filter_append, ih]

/-- A loop whose per-element emitter is empty emits nothing. -/
theorem emitIndexedFrom_eq_nil {α : Type} (f : Nat → α → List (AttrKey × AttrValue))
    (h : ∀ i x, f i x = []) (i0 : Nat) (xs : List α) :
    emitIndexedFrom f i0 xs = [] := by
  induction xs generalizing i0 with
  | nil => rfl
  | cons x rest ih => simp [emitIndexedFrom, h, ih]

/-- Membership in a hide-guarded single write: the one pair whose value is
redacted exactly when the decision is true. -/
theorem mem_hideValue (flag : Bool) (k : AttrKey) (x : String) (p : AttrKey × AttrValue) :
    p ∈ (if !flag then [(k, AttrValue.str x)] else [(k, AttrValue.str REDACTED)]) ↔
      p = (k, AttrValue.str (if flag then REDACTED else x)) := by
  cases flag <;> simp

/-- Membership in a boolean-guarded emission with empty alternative. -/
theorem mem_ite_nil (c : Bool) (L : List (AttrKey × AttrValue)) (p : AttrKey × AttrValue) :
    p ∈ (if c then L else []) ↔ c = true ∧ p ∈ L := by
  cases c <;> simp

/-- Membership in one input-message entry: the role write, redacted exactly
when messages are hidden, and the content write, redacted exactly when
messages or text are hidden. -/
theorem mem_llmInputMessageEntry (hm ht : Bool) (i : Nat) (m : String × String)
    (p : AttrKey × AttrValue) :
    p ∈ llmInputMessageEntry hm ht i m ↔
      p = (.llmInputMessagesRole i, .str (if hm then REDACTED else m.1)) ∨
      p = (.llmInputMessagesContent i, .str (if hm || ht then REDACTED else m.2)) := by
  cases hm <;> cases ht <;> simp [llmInputMessageEntry]

/-- Membership in one document entry: the optional id verbatim, the
content redacted exactly when the hide decision is true, and the optional
score verbatim. -/
theorem mem_documentEntry (idK cK sK : Nat → AttrKey) (hide : Bool) (i : Nat)
    (doc : Document) (p : AttrKey × AttrValue) :
    p ∈ documentEntry idK cK sK hide i doc ↔
      (∃ s, doc.id = some s ∧ p = (idK i, .str s)) ∨
      p = (cK i, .str (if hide then REDACTED else doc.content)) ∨
      (∃ q, doc.score = some q ∧ p = (sK i, .float q)) := by
  unfold documentEntry
  cases hide <;> simp [mem_optAttrs, List.mem_append]

/-- Characterization of every write LlmSpanBuilder::build performs. -/
theorem llm_build_mem (b : LlmSpanBuilder) (p : AttrKey × AttrValue) :
    p ∈ b.build.attrs ↔
      p = (.openinferenceSpanKind, .str SpanKind.Llm.as_str) ∨
      p = (.llmModelName, .str b.model_name) ∨
      (∃ x, b.provider = some x ∧ p = (.llmProvider, .str x)) ∨
      (∃ x, b.system = some x ∧ p = (.llmSystem, .str x)) ∨
      (∃ x, b.invocation_parameters = some x ∧
        p = (.llmInvocationParameters,
          .str (if b.config.hide_llm_invocation_parameters then REDACTED else x))) ∨
      (∃ x, b.input_value = some x ∧
        p = (.inputValue, .str (if b.config.hide_inputs then REDACTED else x))) ∨
      (∃ x, b.output_value = some x ∧
        p = (.outputValue, .str (if b.config.hide_outputs then REDACTED else x))) ∨
      (∃ j, ∃ h : j < b.input_messages.length,
        p = (.llmInputMessagesRole j,
          .str (if b.config.should_hide_input_messages then REDACTED
            else (b.input_messages.get ⟨j, h⟩).1)) ∨
        p = (.llmInputMessagesContent j,
          .str (if b.config.should_hide_input_messages || b.config.should_hide_input_text
            then REDACTED else (b.input_messages.get ⟨j, h⟩).2))) ∨
      (∃ j, ∃ h : j < b.tools.length,
        p = (.llmToolsJsonSchema j, .str (b.tools.get ⟨j, h⟩))) ∨
      (b.config.emit_gen_ai_attributes = true ∧
        (p = (.genAiRequestModel, .str b.model_name) ∨
         (∃ x, b.provider = some x ∧ p = (.genAiProviderName, .str x)) ∨
         (∃ x, b.system = some x ∧ p = (.genAiSystem, .str x)) ∨
         (∃ x, b.temperature = some x ∧ p = (.genAiRequestTemperature, .float x)) ∨
         (∃ x, b.top_p = some x ∧ p = (.genAiRequestTopP, .float x)) ∨
         (∃ x, b.top_k = some x ∧ p = (.genAiRequestTopK, .int x)) ∨
         (∃ x, b.max_tokens = some x ∧ p = (.genAiRequestMaxTokens, .int x)) ∨
         (∃ x, b.frequency_penalty = some x ∧
           p = (.genAiRequestFrequencyPenalty, .float x)) ∨
         (∃ x, b.presence_penalty = some x ∧
           p = (.genAiRequestPresencePenalty, .float x)))) := by
  unfold LlmSpanBuilder.build
  simp only [List.mem_append, mem_optAttrs, mem_hideValue, mem_ite_nil,
    emitIndexedFrom_guard, mem_emitIndexedFrom, mem_llmInputMessageEntry,
    List.mem_cons, List.mem_singleton, List.not_mem_nil, Nat.zero_add, or_false,
    or_assoc]

/-- Characterization of every write EmbeddingSpanBuilder::build performs. -/
theorem embedding_build_mem (b : EmbeddingSpanBuilder) (p : AttrKey × AttrValue) :
    p ∈ b.build.attrs ↔
      p = (.openinferenceSpanKind, .str SpanKind.Embedding.as_str) ∨
      p = (.embeddingModelName, .str b.model_name) ∨
      (∃ j, ∃ h : j < b.texts.length,
        p = (.embeddingEmbeddingsText j,
          .str (if b.config.hide_embeddings_text then REDACTED else b.texts.get ⟨j, h⟩))) ∨
      (∃ x, b.input_value = some x ∧
        p = (.inputValue, .str (if b.config.hide_inputs then REDACTED else x))) := by
  unfold EmbeddingSpanBuilder.build
  have htext : ∀ (j : Nat) (t : String),
      (if b.config.hide_embeddings_text then [(.embeddingEmbeddingsText j, .str REDACTED)]
       else [(.embeddingEmbeddingsText j, .str t)]) =
        [((.embeddingEmbeddingsText j : AttrKey),
          AttrValue.str (if b.config.hide_embeddings_text then REDACTED else t))] := by
    intro j t
    cases b.config.hide_embeddings_text <;> simp
  simp only [List.mem_append, mem_optAttrs, mem_hideValue, mem_emitIndexedFrom, htext,
    List.mem_cons, List.mem_singleton, List.not_mem_nil, Nat.zero_add, or_false, or_assoc]

/-- Characterization of every write ChainSpanBuilder::build performs. -/
theorem chain_build_mem (b : ChainSpanBuilder) (p : AttrKey × AttrValue) :
    p ∈ b.build.attrs ↔
      p = (.openinferenceSpanKind, .str SpanKind.Chain.as_str) ∨
      (∃ x, b.input_value = some x ∧
        p = (.inputValue, .str (if b.config.hide_inputs then REDACTED else x))) ∨
      (∃ x, b.input_mime_type = some x ∧ p = (.inputMimeType, .str x)) ∨
      (∃ x, b.output_value = some x ∧
        p = (.outputValue, .str (if b.config.hide_outputs then REDACTED else x))) ∨
      (∃ x, b.output_mime_type = some x ∧ p = (.outputMimeType, .str x)) := by
  unfold ChainSpanBuilder.build
  simp only [List.mem_append, mem_optAttrs, mem_hideValue,
    List.mem_cons, List.mem_singleton, List.not_mem_nil, or_false, or_assoc]

/-- Characterization of every write ToolSpanBuilder::build performs. -/
theorem tool_build_mem (b : ToolSpanBuilder) (p : AttrKey × AttrValue) :
    p ∈ b.build.attrs ↔
      p = (.openinferenceSpanKind, .str SpanKind.Tool.as_str) ∨
      p = (.toolName, .str b.name) ∨
      (∃ x, b.description = some x ∧ p = (.toolDescription, .str x)) ∨
      (∃ x, b.parameters = some x ∧ p = (.toolParameters, .str x)) ∨
      (∃ x, b.input_value = some x ∧
        p = (.inputValue, .str (if b.config.hide_inputs then REDACTED else x))) ∨
      (∃ x, b.output_value = some x ∧
        p = (.outputValue, .str (if b.config.hide_outputs then REDACTED else x))) := by
  unfold ToolSpanBuilder.build
  simp only [List.mem_append, mem_optAttrs, mem_hideValue,
    List.mem_cons, List.mem_singleton, List.not_mem_nil, or_false, or_assoc]

/-- Characterization of every write RetrieverSpanBuilder::build performs:
only the span kind and the optional query appear; in particular nothing
depends on the stored top_k. -/
theorem retriever_build_mem (b : RetrieverSpanBuilder) (p : AttrKey × AttrValue) :
    p ∈ b.build.attrs ↔
      p = (.openinferenceSpanKind, .str SpanKind.Retriever.as_str) ∨
      (∃ x, b.query = some x ∧
        p = (.inputValue, .str (if b.config.hide_inputs then REDACTED else x))) := by
  unfold RetrieverSpanBuilder.build
  simp only [List.mem_append, mem_optAttrs, mem_hideValue,
    List.mem_cons, List.mem_singleton, List.not_mem_nil, or_false, or_assoc]

/-- Characterization of every write AgentSpanBuilder::build performs. -/
theorem agent_build_mem (b : AgentSpanBuilder) (p : AttrKey × AttrValue) :
    p ∈ b.build.attrs ↔
      p = (.openinferenceSpanKind, .str SpanKind.Agent.as_str) ∨
      p = (.agentName, .str b.name) ∨
      (∃ x, b.input_value = some x ∧
        p = (.inputValue, .str (if b.config.hide_inputs then REDACTED else x))) ∨
      (∃ x, b.output_value = some x ∧
        p = (.outputValue, .str (if b.config.hide_outputs then REDACTED else x))) := by
  unfold AgentSpanBuilder.build
  simp only [List.mem_append, mem_optAttrs, mem_hideValue,
    List.mem_cons, List.mem_singleton, List.not_mem_nil, or_false, or_assoc]

/-- Characterization of every write RerankerSpanBuilder::build performs. -/
theorem reranker_build_mem (b : RerankerSpanBuilder) (p : AttrKey × AttrValue) :
    p ∈ b.build.attrs ↔
      p = (.openinferenceSpanKind, .str SpanKind.Reranker.as_str) ∨
      p = (.rerankerModelName, .str b.model_name) ∨
      (∃ x, b.query = some x ∧
        p = (.rerankerQuery, .str (if b.config.hide_inputs then REDACTED else x))) ∨
      (∃ x, b.top_k = some x ∧ p = (.rerankerTopK, .int x)) ∨
      (∃ j, ∃ h : j < b.input_documents.length,
        (∃ s, (b.input_documents.get ⟨j, h⟩).id = some s ∧
          p = (.rerankerInputDocumentsId j, .str s)) ∨
        p = (.rerankerInputDocumentsContent j,
          .str (if b.config.hide_inputs then REDACTED
            else (b.input_documents.get ⟨j, h⟩).content)) ∨
        (∃ q, (b.input_documents.get ⟨j, h⟩).score = some q ∧
          p = (.rerankerInputDocumentsScore j, .float q))) := by
  unfold RerankerSpanBuilder.build
  simp only [List.mem_append, mem_optAttrs, mem_hideValue, mem_emitIndexedFrom,
    mem_documentEntry, List.mem_cons, List.mem_singleton, List.not_mem_nil,
    Nat.zero_add, or_false, or_assoc]

/-- Characterization of every write GuardrailSpanBuilder::build performs. -/
theorem guardrail_build_mem (b : GuardrailSpanBuilder) (p : AttrKey × AttrValue) :
    p ∈ b.build.attrs ↔
      p = (.openinferenceSpanKind, .str SpanKind.Guardrail.as_str) ∨
      (∃ x, b.input_value = some x ∧
        p = (.inputValue, .str (if b.config.hide_inputs then REDACTED else x))) ∨
      (∃ x, b.output_value = some x ∧
        p = (.outputValue, .str (if b.config.hide_outputs then REDACTED else x))) := by
  unfold GuardrailSpanBuilder.build
  simp only [List.mem_append, mem_optAttrs, mem_hideValue,
    List.mem_cons, List.mem_singleton, List.not_mem_nil, or_false, or_assoc]

/-- Characterization of every write EvaluatorSpanBuilder::build performs. -/
theorem evaluator_build_mem (b : EvaluatorSpanBuilder) (p : AttrKey × AttrValue) :
    p ∈ b.build.attrs ↔
      p = (.openinferenceSpanKind, .str SpanKind.Evaluator.as_str) ∨
      (∃ x, b.input_value = some x ∧
        p = (.inputValue, .str (if b.config.hide_inputs then REDACTED else x))) ∨
      (∃ x, b.output_value = some x ∧
        p = (.outputValue, .str (if b.config.hide_outputs then REDACTED else x))) := by
  unfold EvaluatorSpanBuilder.build
  simp only [List.mem_append, mem_optAttrs, mem_hideValue,
    List.mem_cons, List.mem_singleton, List.not_mem_nil, or_false, or_assoc]

/-- Characterization of every write record_reranker_output_documents
performs. -/
theorem record_reranker_output_documents_mem (documents : List Document)
    (config : TraceConfig) (p : AttrKey × AttrValue) :
    p ∈ record_reranker_output_documents documents config ↔
      (∃ j, ∃ h : j < documents.length,
        (∃ s, (documents.get ⟨j, h⟩).id = some s ∧
          p = (.rerankerOutputDocumentsId j, .str s)) ∨
        p = (.rerankerOutputDocumentsContent j,
          .str (if config.hide_outputs then REDACTED else (documents.get ⟨j, h⟩).content)) ∨
        (∃ q, (documents.get ⟨j, h⟩).score = some q ∧
          p = (.rerankerOutputDocumentsScore j, .float q))) := by
  unfold record_reranker_output_documents
  simp only [mem_emitIndexedFrom, mem_documentEntry, Nat.zero_add]

/-- Characterization of every write record_retrieval_documents performs. -/
theorem record_retrieval_documents_mem (documents : List Document)
    (config : TraceConfig) (p : AttrKey × AttrValue) :
    p ∈ record_retrieval_documents documents config ↔
      (∃ j, ∃ h : j < documents.length,
        (∃ s, (documents.get ⟨j, h⟩).id = some s ∧
          p = (.retrievalDocumentsId j, .str s)) ∨
        p = (.retrievalDocumentsContent j,
          .str (if config.hide_outputs then REDACTED else (documents.get ⟨j, h⟩).content)) ∨
        (∃ q, (documents.get ⟨j, h⟩).score = some q ∧
          p = (.retrievalDocumentsScore j, .float q))) := by
  unfold record_retrieval_documents
  simp only [mem_emitIndexedFrom, mem_documentEntry, Nat.zero_add]

/-- The role attribute of input message j is bound exactly once by an LLM
build: to the redaction marker when messages are hidden, otherwise to the
role verbatim. -/
theorem llm_build_role_binding (b : LlmSpanBuilder) (j : Nat)
    (h : j < b.input_messages.length) :
    bindsExactly b.build.attrs (.llmInputMessagesRole j)
      (.str (if b.config.should_hide_input_messages then REDACTED
        else (b.input_messages.get ⟨j, h⟩).1)) := by
  constructor
  · rw [llm_build_mem]
    exact Or.inr (Or.inr (Or.inr (Or.inr (Or.inr (Or.inr (Or.inr
      (Or.inl ⟨j, h, Or.inl rfl⟩)))))))
  · intro w hw
    rw [llm_build_mem] at hw
    rcases hw with hw|hw|⟨x,hx,hw⟩|⟨x,hx,hw⟩|⟨x,hx,hw⟩|⟨x,hx,hw⟩|⟨x,hx,hw⟩|
      ⟨j2,hj2,hw|hw⟩|⟨j2,hj2,hw⟩|
      ⟨he,hw|⟨x,hx,hw⟩|⟨x,hx,hw⟩|⟨x,hx,hw⟩|⟨x,hx,hw⟩|⟨x,hx,hw⟩|⟨x,hx,hw⟩|⟨x,hx,hw⟩|⟨x,hx,hw⟩⟩ <;>
      simp only [Prod.mk.injEq] at hw <;>
      first
        | (refine absurd hw.1 ?_
           simp
           done)
        | (obtain ⟨hk, hv⟩ := hw
           simp only [AttrKey.llmInputMessagesRole.injEq] at hk
           subst hk
           exact hv)

/-- The content attribute of input message j is bound exactly once by an
LLM build: to the redaction marker when messages or text are hidden,
otherwise to the content verbatim. -/
theorem llm_build_content_binding (b : LlmSpanBuilder) (j : Nat)
    (h : j < b.input_messages.length) :
    bindsExactly b.build.attrs (.llmInputMessagesContent j)
      (.str (if b.config.should_hide_input_messages || b.config.should_hide_input_text
        then REDACTED else (b.input_messages.get ⟨j, h⟩).2)) := by
  constructor
  · rw [llm_build_mem]
    exact Or.inr (Or.inr (Or.inr (Or.inr (Or.inr (Or.inr (Or.inr
      (Or.inl ⟨j, h, Or.inr rfl⟩)))))))
  · intro w hw
    rw [llm_build_mem] at hw
    rcases hw with hw|hw|⟨x,hx,hw⟩|⟨x,hx,hw⟩|⟨x,hx,hw⟩|⟨x,hx,hw⟩|⟨x,hx,hw⟩|
      ⟨j2,hj2,hw|hw⟩|⟨j2,hj2,hw⟩|
      ⟨he,hw|⟨x,hx,hw⟩|⟨x,hx,hw⟩|⟨x,hx,hw⟩|⟨x,hx,hw⟩|⟨x,hx,hw⟩|⟨x,hx,hw⟩|⟨x,hx,hw⟩|⟨x,hx,hw⟩⟩ <;>
      simp only [Prod.mk.injEq] at hw <;>
      first
        | (refine absurd hw.1 ?_
           simp
           done)
        | (obtain ⟨hk, hv⟩ := hw
           simp only [AttrKey.llmInputMessagesContent.injEq] at hk
           subst hk
           exact hv)

/-- C2: role/content asymmetry. For every input message of an LLM builder,
when the input-text decision is true but the input-messages decision is
false, the role attribute is bound exactly to the role verbatim and the
content attribute exactly to the redaction marker; when the input-messages
decision is true, both are bound exactly to the marker. record_output_message
mirrors this exactly for output messages. -/
theorem c2_role_content_asymmetry :
    (∀ (b : LlmSpanBuilder) (j : Nat) (h : j < b.input_messages.length),
      (b.config.should_hide_input_text = true →
        b.config.should_hide_input_messages = false →
        bindsExactly b.build.attrs (.llmInputMessagesRole j)
          (.str (b.input_messages.get ⟨j, h⟩).1) ∧
        bindsExactly b.build.attrs (.llmInputMessagesContent j) (.str REDACTED)) ∧
      (b.config.should_hide_input_messages = true →
        bindsExactly b.build.attrs (.llmInputMessagesRole j) (.str REDACTED) ∧
        bindsExactly b.build.attrs (.llmInputMessagesContent j) (.str REDACTED))) ∧
    (∀ (index : Nat) (role content : String) (cfg : TraceConfig),
      (cfg.should_hide_output_text = true → cfg.should_hide_output_messages = false →
        record_output_message index role content cfg =
          [(.llmOutputMessagesRole index, .str role),
           (.llmOutputMessagesContent index, .str REDACTED)]) ∧
      (cfg.should_hide_output_messages = true →
        record_output_message index role content cfg =
          [(.llmOutputMessagesRole index, .str REDACTED),
           (.llmOutputMessagesContent index, .str REDACTED)])) := by
  constructor
  · intro b j h
    constructor
    · intro ht hm
      constructor
      · have := llm_build_role_binding b j h
        rwa [hm, if_neg (by simp)] at this
      · have := llm_build_content_binding b j h
        rwa [hm, ht, if_pos (by simp)] at this
    · intro hm
      constructor
      · have := llm_build_role_binding b j h
        rwa [hm, if_pos rfl] at this
      · have := llm_build_content_binding b j h
        rwa [hm, if_pos (by simp)] at this
  · intro index role content cfg
    constructor
    · intro ht hm
      unfold record_output_message
      rw [hm, ht]
      rfl
    · intro hm
      unfold record_output_message
      rw [hm]
      rfl

/-- Witness for C2 at a concrete builder with only hide_input_text set and
a concrete output-message recording with only hide_output_messages set. -/
theorem c2_role_content_asymmetry_witness :
    bindsExactly
      (LlmSpanBuilder.build
        { LlmSpanBuilder.new "gpt-4" with
          input_messages := [("system", "secret")]
          config := { TraceConfig.default with hide_input_text := true } }).attrs
      (.llmInputMessagesRole 0) (.str "system") ∧
    bindsExactly
      (LlmSpanBuilder.build
        { LlmSpanBuilder.new "gpt-4" with
          input_messages := [("system", "secret")]
          config := { TraceConfig.default with hide_input_text := true } }).attrs
      (.llmInputMessagesContent 0) (.str REDACTED) ∧
    record_output_message 0 "assistant" "secret"
        { TraceConfig.default with hide_output_messages := true } =
      [(.llmOutputMessagesRole 0, .str REDACTED),
       (.llmOutputMessagesContent 0, .str REDACTED)] := by
  refine ⟨?_, ?_, ?_⟩
  · exact ((c2_role_content_asymmetry.1
      { LlmSpanBuilder.new "gpt-4" with
        input_messages := [("system", "secret")]
        config := { TraceConfig.default with hide_input_text := true } }
      0 (by decide)).1 (by decide) (by decide)).1
  · exact ((c2_role_content_asymmetry.1
      { LlmSpanBuilder.new "gpt-4" with
        input_messages := [("system", "secret")]
        config := { TraceConfig.default with hide_input_text := true } }
      0 (by decide)).1 (by decide) (by decide)).2
  · exact (c2_role_content_asymmetry.2 0 "assistant" "secret"
      { TraceConfig.default with hide_output_messages := true }).2 (by decide)

/-- C6 counterexample: a Chain builder named pipeline opens the span under
the bare name pipeline, not under "chain pipeline" as the claim states. -/
theorem c6_chain_name_counterexample :
    (ChainSpanBuilder.build (ChainSpanBuilder.new "pipeline")).name = "pipeline" ∧
    (ChainSpanBuilder.build (ChainSpanBuilder.new "pipeline")).name ≠ "chain pipeline" := by
  exact ⟨rfl, by decide⟩

/-- C6 amended: eight of the nine builders open the span under
"operation-kind-lowercase space identifying-name"; the Chain builder
deviates and opens the span under the bare chain name with no prefix. -/
theorem c6_span_names :
    (∀ b : LlmSpanBuilder, b.build.name = "llm " ++ b.model_name) ∧
    (∀ b : EmbeddingSpanBuilder, b.build.name = "embedding " ++ b.model_name) ∧
    (∀ b : ChainSpanBuilder, b.build.name = b.name) ∧
    (∀ b : ToolSpanBuilder, b.build.name = "tool " ++ b.name) ∧
    (∀ b : RetrieverSpanBuilder, b.build.name = "retriever " ++ b.name) ∧
    (∀ b : AgentSpanBuilder, b.build.name = "agent " ++ b.name) ∧
    (∀ b : RerankerSpanBuilder, b.build.name = "reranker " ++ b.model_name) ∧
    (∀ b : GuardrailSpanBuilder, b.build.name = "guardrail " ++ b.name) ∧
    (∀ b : EvaluatorSpanBuilder, b.build.name = "evaluator " ++ b.name) := by
  exact ⟨fun _ => rfl, fun _ => rfl, fun _ => rfl, fun _ => rfl, fun _ => rfl,
    fun _ => rfl, fun _ => rfl, fun _ => rfl, fun _ => rfl⟩

/-- Filtering distributes over an optional-field emission. -/
theorem filter_optAttrs {β : Type} (q : AttrKey × AttrValue → Bool) (o : Option β)
    (g : β → List (AttrKey × AttrValue)) :
    (optAttrs o g).filter q = optAttrs o (fun x => (g x).filter q) := by
  cases o <;> rfl

/-- An optional-field emission with empty body emits nothing. -/
theorem optAttrs_nil {β : Type} (o : Option β) :
    optAttrs o (fun _ => ([] : List (AttrKey × AttrValue))) = [] := by
  cases o <;> rfl

/-- A loop with empty per-element body emits nothing. -/
theorem emitIndexedFrom_nil_fun {α : Type} (i0 : Nat) (xs : List α) :
    emitIndexedFrom (fun _ _ => ([] : List (AttrKey × AttrValue))) i0 xs = [] := by
  induction xs generalizing i0 with
  | nil => rfl
  | cons x rest ih => simpa [emitIndexedFrom] using ih _

/-- A hide-guarded single write equals one pair whose value is redacted
exactly when the decision is true. -/
theorem hideValue_eq (flag : Bool) (k : AttrKey) (x : String) :
    (if !flag then [(k, AttrValue.str x)] else [(k, AttrValue.str REDACTED)]) =
      [(k, AttrValue.str (if flag then REDACTED else x))] := by
  cases flag <;> rfl

/-- The hide-guarded single write in the boolean-test normal form simp
produces. -/
theorem hideValue_eq_false (flag : Bool) (k : AttrKey) (x : String) :
    (if flag = false then [(k, AttrValue.str x)] else [(k, AttrValue.str REDACTED)]) =
      [(k, AttrValue.str (if flag then REDACTED else x))] := by
  cases flag <;> rfl

/-- The emptiness guard in the list-equality normal form simp produces. -/
theorem emitIndexedFrom_guard_eq {α : Type} [DecidableEq α]
    (f : Nat → α → List (AttrKey × AttrValue)) (xs : List α) :
    (if xs = [] then [] else emitIndexedFrom f 0 xs) = emitIndexedFrom f 0 xs := by
  cases xs <;> rfl

/-- The llm.invocation_parameters writes of an LLM build are exactly the
optional invocation-parameters field, redacted under the flat
hide_llm_invocation_parameters flag alone. -/
theorem llm_build_filter_inv (b : LlmSpanBuilder) :
    b.build.attrs.filter (fun p => decide (p.1 = AttrKey.llmInvocationParameters)) =
      optAttrs b.invocation_parameters (fun params =>
        [(.llmInvocationParameters,
          .str (if b.config.hide_llm_invocation_parameters then REDACTED else params))]) := by
  unfold LlmSpanBuilder.build
  simp [List.filter_append, filter_optAttrs, emitIndexedFrom_guard_eq, filter_emitIndexedFrom,
    hideValue_eq_false, llmInputMessageEntry, List.filter_cons, List.filter_nil,
    apply_ite (List.filter
      (fun p : AttrKey × AttrValue => decide (p.1 = AttrKey.llmInvocationParameters))),
    optAttrs_nil, emitIndexedFrom_nil_fun]

/-- C10: the llm.invocation_parameters attribute is governed solely by the
flat hide_llm_invocation_parameters flag: two configurations agreeing on
that flag produce identical invocation-parameters writes from the same
builder fields, whatever their other flags; and with hide_inputs true alone
the invocation-parameter JSON is emitted verbatim. -/
theorem c10_invocation_parameters_flat :
    (∀ (b : LlmSpanBuilder) (c₁ c₂ : TraceConfig),
      c₁.hide_llm_invocation_parameters = c₂.hide_llm_invocation_parameters →
      (LlmSpanBuilder.build { b with config := c₁ }).attrs.filter
          (fun p => decide (p.1 = AttrKey.llmInvocationParameters)) =
        (LlmSpanBuilder.build { b with config := c₂ }).attrs.filter
          (fun p => decide (p.1 = AttrKey.llmInvocationParameters))) ∧
    (∀ (b : LlmSpanBuilder) (v : String),
      (LlmSpanBuilder.build { b with
          config := { TraceConfig.default with hide_inputs := true }
          invocation_parameters := some v }).attrs.filter
        (fun p => decide (p.1 = AttrKey.llmInvocationParameters)) =
      [(.llmInvocationParameters, .str v)]) := by
  constructor
  · intro b c₁ c₂ h
    rw [llm_build_filter_inv, llm_build_filter_inv]
    simp [h]
  · intro b v
    rw [llm_build_filter_inv]
    rfl

/-- Witness for C10: with hide_inputs true alone a concrete builder emits
its invocation parameters verbatim, and flipping hide_inputs leaves the
invocation-parameters writes identical. -/
theorem c10_invocation_parameters_flat_witness :
    (LlmSpanBuilder.build { LlmSpanBuilder.new "m" with
        config := { TraceConfig.default with hide_inputs := true }
        invocation_parameters := some "params" }).attrs.filter
      (fun p => decide (p.1 = AttrKey.llmInvocationParameters)) =
      [(.llmInvocationParameters, .str "params")] ∧
    (LlmSpanBuilder.build { LlmSpanBuilder.new "m" with
        config := { TraceConfig.default with hide_inputs := true } }).attrs.filter
      (fun p => decide (p.1 = AttrKey.llmInvocationParameters)) =
    (LlmSpanBuilder.build { LlmSpanBuilder.new "m" with
        config := TraceConfig.default }).attrs.filter
      (fun p => decide (p.1 = AttrKey.llmInvocationParameters)) := by
  constructor
  · exact c10_invocation_parameters_flat.2 (LlmSpanBuilder.new "m") "params"
  · exact c10_invocation_parameters_flat.1 (LlmSpanBuilder.new "m")
      { TraceConfig.default with hide_inputs := true } TraceConfig.default rfl

/-- Taking seven characters of an appended list reads only a long enough
left part. -/
theorem take_seven_append (l₁ l₂ : List Char) (h : 7 ≤ l₁.length) :
    (l₁ ++ l₂).take 7 = l₁.take 7 :=
  List.take_append_of_le_length h

/-- The span-kind key is not GenAI-prefixed. -/
theorem genAiPrefixed_spanKind : genAiPrefixed .openinferenceSpanKind = false := by decide

/-- The model-name key is not GenAI-prefixed. -/
theorem genAiPrefixed_llmModelName : genAiPrefixed .llmModelName = false := by decide

/-- The provider key is not GenAI-prefixed. -/
theorem genAiPrefixed_llmProvider : genAiPrefixed .llmProvider = false := by decide

/-- The system key is not GenAI-prefixed. -/
theorem genAiPrefixed_llmSystem : genAiPrefixed .llmSystem = false := by decide

/-- The invocation-parameters key is not GenAI-prefixed. -/
theorem genAiPrefixed_llmInvocationParameters :
    genAiPrefixed .llmInvocationParameters = false := by decide

/-- The input-value key is not GenAI-prefixed. -/
theorem genAiPrefixed_inputValue : genAiPrefixed .inputValue = false := by decide

/-- The output-value key is not GenAI-prefixed. -/
theorem genAiPrefixed_outputValue : genAiPrefixed .outputValue = false := by decide

/-- The token-count keys are not GenAI-prefixed. -/
theorem genAiPrefixed_llmTokenCountPrompt :
    genAiPrefixed .llmTokenCountPrompt = false := by decide

/-- The completion token-count key is not GenAI-prefixed. -/
theorem genAiPrefixed_llmTokenCountCompletion :
    genAiPrefixed .llmTokenCountCompletion = false := by decide

/-- The total token-count key is not GenAI-prefixed. -/
theorem genAiPrefixed_llmTokenCountTotal :
    genAiPrefixed .llmTokenCountTotal = false := by decide

/-- Indexed input-message role keys are never GenAI-prefixed. -/
theorem genAiPrefixed_llmInputMessagesRole (i : Nat) :
    genAiPrefixed (.llmInputMessagesRole i) = false := by
  refine decide_eq_false fun hcontra => ?_
  rw [AttrKey.render, String.data_append, String.data_append, List.append_assoc,
    take_seven_append _ _ (by decide)] at hcontra
  exact absurd hcontra (by decide)

/-- Indexed input-message content keys are never GenAI-prefixed. -/
theorem genAiPrefixed_llmInputMessagesContent (i : Nat) :
    genAiPrefixed (.llmInputMessagesContent i) = false := by
  refine decide_eq_false fun hcontra => ?_
  rw [AttrKey.render, String.data_append, String.data_append, List.append_assoc,
    take_seven_append _ _ (by decide)] at hcontra
  exact absurd hcontra (by decide)

/-- Indexed tool json-schema keys are never GenAI-prefixed. -/
theorem genAiPrefixed_llmToolsJsonSchema (i : Nat) :
    genAiPrefixed (.llmToolsJsonSchema i) = false := by
  refine decide_eq_false fun hcontra => ?_
  rw [AttrKey.render, String.data_append, String.data_append, List.append_assoc,
    take_seven_append _ _ (by decide)] at hcontra
  exact absurd hcontra (by decide)

/-- The nine GenAI request keys and the two usage keys are GenAI-prefixed. -/
theorem genAiPrefixed_genAiRequestModel : genAiPrefixed .genAiRequestModel = true := by decide

/-- The GenAI provider key is GenAI-prefixed. -/
theorem genAiPrefixed_genAiProviderName : genAiPrefixed .genAiProviderName = true := by decide

/-- The GenAI system key is GenAI-prefixed. -/
theorem genAiPrefixed_genAiSystem : genAiPrefixed .genAiSystem = true := by decide

/-- The GenAI temperature key is GenAI-prefixed. -/
theorem genAiPrefixed_genAiRequestTemperature :
    genAiPrefixed .genAiRequestTemperature = true := by decide

/-- The GenAI top_p key is GenAI-prefixed. -/
theorem genAiPrefixed_genAiRequestTopP : genAiPrefixed .genAiRequestTopP = true := by decide

/-- The GenAI top_k key is GenAI-prefixed. -/
theorem genAiPrefixed_genAiRequestTopK : genAiPrefixed .genAiRequestTopK = true := by decide

/-- The GenAI max-tokens key is GenAI-prefixed. -/
theorem genAiPrefixed_genAiRequestMaxTokens :
    genAiPrefixed .genAiRequestMaxTokens = true := by decide

/-- The GenAI frequency-penalty key is GenAI-prefixed. -/
theorem genAiPrefixed_genAiRequestFrequencyPenalty :
    genAiPrefixed .genAiRequestFrequencyPenalty = true := by decide

/-- The GenAI presence-penalty key is GenAI-prefixed. -/
theorem genAiPrefixed_genAiRequestPresencePenalty :
    genAiPrefixed .genAiRequestPresencePenalty = true := by decide

/-- The GenAI input-tokens usage key is GenAI-prefixed. -/
theorem genAiPrefixed_genAiUsageInputTokens :
    genAiPrefixed .genAiUsageInputTokens = true := by decide

/-- The GenAI output-tokens usage key is GenAI-prefixed. -/
theorem genAiPrefixed_genAiUsageOutputTokens :
    genAiPrefixed .genAiUsageOutputTokens = true := by decide

/-- Pointwise equal per-element emitters produce equal loop emissions. -/
theorem emitIndexedFrom_congr {α : Type} (f g : Nat → α → List (AttrKey × AttrValue))
    (h : ∀ i x, f i x = g i x) (i0 : Nat) (xs : List α) :
    emitIndexedFrom f i0 xs = emitIndexedFrom g i0 xs := by
  induction xs generalizing i0 with
  | nil => rfl
  | cons x rest ih => simp [emitIndexedFrom, h, ih]

/-- C3 counterexample to the claim as stated: the post-hoc token-usage
recording operation takes no configuration at all, so even under a
configuration with emit_gen_ai_attributes false it emits the
GenAI-prefixed gen_ai.usage.input_tokens attribute. -/
theorem c3_record_token_usage_counterexample :
    (AttrKey.genAiUsageInputTokens, AttrValue.int 100) ∈ record_token_usage 100 50 ∧
    genAiPrefixed AttrKey.genAiUsageInputTokens = true := by
  decide

/-- C3 amended: with emit_gen_ai_attributes false an LLM build emits no
GenAI-prefixed attribute, and the non-GenAI writes of a build are the same
whatever the emit flag (the full primary set is produced unchanged); the
post-hoc token-usage recording operation, however, takes no configuration
and always emits both the OpenInference token counts and the GenAI usage
attributes. -/
theorem c3_gen_ai_suppression :
    (∀ b : LlmSpanBuilder, b.config.emit_gen_ai_attributes = false →
      b.build.attrs.filter (fun p => genAiPrefixed p.1) = []) ∧
    (∀ (b : LlmSpanBuilder) (e : Bool),
      (LlmSpanBuilder.build { b with
          config := { b.config with emit_gen_ai_attributes := e } }).attrs.filter
        (fun p => !genAiPrefixed p.1) =
      (LlmSpanBuilder.build { b with
          config := { b.config with emit_gen_ai_attributes := false } }).attrs) ∧
    (∀ p c : Int, record_token_usage p c =
      [(.llmTokenCountPrompt, .int p), (.llmTokenCountCompletion, .int c),
       (.llmTokenCountTotal, .int (p + c)),
       (.genAiUsageInputTokens, .int p), (.genAiUsageOutputTokens, .int c)]) ∧
    (∀ p c : Int, (record_token_usage p c).filter (fun q => genAiPrefixed q.1) =
      [(.genAiUsageInputTokens, .int p), (.genAiUsageOutputTokens, .int c)]) := by
  refine ⟨?_, ?_, fun p c => rfl, ?_⟩
  · intro b h
    unfold LlmSpanBuilder.build
    simp [List.filter_append, filter_optAttrs, emitIndexedFrom_guard_eq,
      filter_emitIndexedFrom, hideValue_eq_false, llmInputMessageEntry,
      List.filter_cons, List.filter_nil, h,
      apply_ite (List.filter (fun p : AttrKey × AttrValue => genAiPrefixed p.1)),
      optAttrs_nil, emitIndexedFrom_nil_fun,
      genAiPrefixed_spanKind, genAiPrefixed_llmModelName, genAiPrefixed_llmProvider,
      genAiPrefixed_llmSystem, genAiPrefixed_llmInvocationParameters,
      genAiPrefixed_inputValue, genAiPrefixed_outputValue,
      genAiPrefixed_llmInputMessagesRole, genAiPrefixed_llmInputMessagesContent,
      genAiPrefixed_llmToolsJsonSchema]
  · intro b e
    unfold LlmSpanBuilder.build
    simp [List.filter_append, filter_optAttrs, emitIndexedFrom_guard_eq,
      filter_emitIndexedFrom, hideValue_eq_false, llmInputMessageEntry,
      List.filter_cons, List.filter_nil,
      TraceConfig.should_hide_input_messages, TraceConfig.should_hide_input_text,
      apply_ite (List.filter (fun p : AttrKey × AttrValue => !genAiPrefixed p.1)),
      optAttrs_nil, emitIndexedFrom_nil_fun,
      genAiPrefixed_spanKind, genAiPrefixed_llmModelName, genAiPrefixed_llmProvider,
      genAiPrefixed_llmSystem, genAiPrefixed_llmInvocationParameters,
      genAiPrefixed_inputValue, genAiPrefixed_outputValue,
      genAiPrefixed_llmInputMessagesRole, genAiPrefixed_llmInputMessagesContent,
      genAiPrefixed_llmToolsJsonSchema,
      genAiPrefixed_genAiRequestModel, genAiPrefixed_genAiProviderName,
      genAiPrefixed_genAiSystem, genAiPrefixed_genAiRequestTemperature,
      genAiPrefixed_genAiRequestTopP, genAiPrefixed_genAiRequestTopK,
      genAiPrefixed_genAiRequestMaxTokens, genAiPrefixed_genAiRequestFrequencyPenalty,
      genAiPrefixed_genAiRequestPresencePenalty]
    exact emitIndexedFrom_congr _ _
      (fun i x => by
        simp [llmInputMessageEntry, TraceConfig.should_hide_input_messages,
          TraceConfig.should_hide_input_text])
      0 b.input_messages
  · intro p c
    simp [record_token_usage, List.filter_cons, List.filter_nil,
      genAiPrefixed_llmTokenCountPrompt, genAiPrefixed_llmTokenCountCompletion,
      genAiPrefixed_llmTokenCountTotal, genAiPrefixed_genAiUsageInputTokens,
      genAiPrefixed_genAiUsageOutputTokens]

/-- Witness for C3 at a concrete builder with every GenAI-relevant field
set and emission off: the GenAI filter of its writes is empty. -/
theorem c3_gen_ai_suppression_witness :
    (LlmSpanBuilder.build { LlmSpanBuilder.new "gpt-4" with
        provider := some "openai"
        system := some "openai"
        temperature := some 1
        top_p := some 1
        top_k := some 50
        max_tokens := some 1000
        frequency_penalty := some 1
        presence_penalty := some 1
        input_messages := [("user", "hi")]
        invocation_parameters := some "params"
        input_value := some "in"
        output_value := some "out"
        tools := ["schema"]
        config := { TraceConfig.default with emit_gen_ai_attributes := false }
      }).attrs.filter (fun p => genAiPrefixed p.1) = [] := by
  exact c3_gen_ai_suppression.1
    { LlmSpanBuilder.new "gpt-4" with
      provider := some "openai"
      system := some "openai"
      temperature := some 1
      top_p := some 1
      top_k := some 50
      max_tokens := some 1000
      frequency_penalty := some 1
      presence_penalty := some 1
      input_messages := [("user", "hi")]
      invocation_parameters := some "params"
      input_value := some "in"
      output_value := some "out"
      tools := ["schema"]
      config := { TraceConfig.default with emit_gen_ai_attributes := false } } rfl

/-- C4: metadata is never redacted. For every configuration, the chain
input/output MIME types, a document id and a document score are bound
exactly to their verbatim values whenever present — in reranker input
documents, reranker output documents and retrieval documents — even though
the accompanying content attribute may be redacted. -/
theorem c4_metadata_never_redacted :
    (∀ (b : ChainSpanBuilder) (m : String), b.input_mime_type = some m →
      bindsExactly b.build.attrs .inputMimeType (.str m)) ∧
    (∀ (b : ChainSpanBuilder) (m : String), b.output_mime_type = some m →
      bindsExactly b.build.attrs .outputMimeType (.str m)) ∧
    (∀ (b : RerankerSpanBuilder) (j : Nat) (h : j < b.input_documents.length) (s : String),
      (b.input_documents.get ⟨j, h⟩).id = some s →
      bindsExactly b.build.attrs (.rerankerInputDocumentsId j) (.str s)) ∧
    (∀ (b : RerankerSpanBuilder) (j : Nat) (h : j < b.input_documents.length) (q : Rat),
      (b.input_documents.get ⟨j, h⟩).score = some q →
      bindsExactly b.build.attrs (.rerankerInputDocumentsScore j) (.float q)) ∧
    (∀ (docs : List Document) (cfg : TraceConfig) (j : Nat) (h : j < docs.length)
      (s : String), (docs.get ⟨j, h⟩).id = some s →
      bindsExactly (record_reranker_output_documents docs cfg)
        (.rerankerOutputDocumentsId j) (.str s)) ∧
    (∀ (docs : List Document) (cfg : TraceConfig) (j : Nat) (h : j < docs.length)
      (q : Rat), (docs.get ⟨j, h⟩).score = some q →
      bindsExactly (record_reranker_output_documents docs cfg)
        (.rerankerOutputDocumentsScore j) (.float q)) ∧
    (∀ (docs : List Document) (cfg : TraceConfig) (j : Nat) (h : j < docs.length)
      (s : String), (docs.get ⟨j, h⟩).id = some s →
      bindsExactly (record_retrieval_documents docs cfg)
        (.retrievalDocumentsId j) (.str s)) ∧
    (∀ (docs : List Document) (cfg : TraceConfig) (j : Nat) (h : j < docs.length)
      (q : Rat), (docs.get ⟨j, h⟩).score = some q →
      bindsExactly (record_retrieval_documents docs cfg)
        (.retrievalDocumentsScore j) (.float q)) := by
  refine ⟨?_, ?_, ?_, ?_, ?_, ?_, ?_, ?_⟩
  · intro b m hm
    constructor
    · rw [chain_build_mem]
      exact Or.inr (Or.inr (Or.inl ⟨m, hm, rfl⟩))
    · intro w hw
      rw [chain_build_mem] at hw
      rcases hw with hw|⟨x,hx,hw⟩|⟨x,hx,hw⟩|⟨x,hx,hw⟩|⟨x,hx,hw⟩ <;>
        simp only [Prod.mk.injEq] at hw <;>
        first
          | (refine absurd hw.1 ?_
             simp
             done)
          | (obtain ⟨hk, hv⟩ := hw
             cases Option.some.inj (hm.symm.trans hx)
             exact hv)
  · intro b m hm
    constructor
    · rw [chain_build_mem]
      exact Or.inr (Or.inr (Or.inr (Or.inr ⟨m, hm, rfl⟩)))
    · intro w hw
      rw [chain_build_mem] at hw
      rcases hw with hw|⟨x,hx,hw⟩|⟨x,hx,hw⟩|⟨x,hx,hw⟩|⟨x,hx,hw⟩ <;>
        simp only [Prod.mk.injEq] at hw <;>
        first
          | (refine absurd hw.1 ?_
             simp
             done)
          | (obtain ⟨hk, hv⟩ := hw
             cases Option.some.inj (hm.symm.trans hx)
             exact hv)
  · intro b j h s hid
    constructor
    · rw [reranker_build_mem]
      exact Or.inr (Or.inr (Or.inr (Or.inr ⟨j, h, Or.inl ⟨s, hid, rfl⟩⟩)))
    · intro w hw
      rw [reranker_build_mem] at hw
      rcases hw with hw|hw|⟨x,hx,hw⟩|⟨x,hx,hw⟩|⟨j2,hj2,⟨s2,hs2,hw⟩|hw|⟨q2,hq2,hw⟩⟩ <;>
        simp only [Prod.mk.injEq] at hw <;>
        first
          | (refine absurd hw.1 ?_
             simp
             done)
          | (obtain ⟨hk, hv⟩ := hw
             simp only [AttrKey.rerankerInputDocumentsId.injEq] at hk
             subst hk
             cases Option.some.inj (hid.symm.trans hs2)
             exact hv)
  · intro b j h q hsc
    constructor
    · rw [reranker_build_mem]
      exact Or.inr (Or.inr (Or.inr (Or.inr ⟨j, h, Or.inr (Or.inr ⟨q, hsc, rfl⟩)⟩)))
    · intro w hw
      rw [reranker_build_mem] at hw
      rcases hw with hw|hw|⟨x,hx,hw⟩|⟨x,hx,hw⟩|⟨j2,hj2,⟨s2,hs2,hw⟩|hw|⟨q2,hq2,hw⟩⟩ <;>
        simp only [Prod.mk.injEq] at hw <;>
        first
          | (refine absurd hw.1 ?_
             simp
             done)
          | (obtain ⟨hk, hv⟩ := hw
             simp only [AttrKey.rerankerInputDocumentsScore.injEq] at hk
             subst hk
             cases Option.some.inj (hsc.symm.trans hq2)
             exact hv)
  · intro docs cfg j h s hid
    constructor
    · rw [record_reranker_output_documents_mem]
      exact ⟨j, h, Or.inl ⟨s, hid, rfl⟩⟩
    · intro w hw
      rw [record_reranker_output_documents_mem] at hw
      rcases hw with ⟨j2,hj2,⟨s2,hs2,hw⟩|hw|⟨q2,hq2,hw⟩⟩ <;>
        simp only [Prod.mk.injEq] at hw <;>
        first
          | (refine absurd hw.1 ?_
             simp
             done)
          | (obtain ⟨hk, hv⟩ := hw
             simp only [AttrKey.rerankerOutputDocumentsId.injEq] at hk
             subst hk
             cases Option.some.inj (hid.symm.trans hs2)
             exact hv)
  · intro docs cfg j h q hsc
    constructor
    · rw [record_reranker_output_documents_mem]
      exact ⟨j, h, Or.inr (Or.inr ⟨q, hsc, rfl⟩)⟩
    · intro w hw
      rw [record_reranker_output_documents_mem] at hw
      rcases hw with ⟨j2,hj2,⟨s2,hs2,hw⟩|hw|⟨q2,hq2,hw⟩⟩ <;>
        simp only [Prod.mk.injEq] at hw <;>
        first
          | (refine absurd hw.1 ?_
             simp
             done)
          | (obtain ⟨hk, hv⟩ := hw
             simp only [AttrKey.rerankerOutputDocumentsScore.injEq] at hk
             subst hk
             cases Option.some.inj (hsc.symm.trans hq2)
             exact hv)
  · intro docs cfg j h s hid
    constructor
    · rw [record_retrieval_documents_mem]
      exact ⟨j, h, Or.inl ⟨s, hid, rfl⟩⟩
    · intro w hw
      rw [record_retrieval_documents_mem] at hw
      rcases hw with ⟨j2,hj2,⟨s2,hs2,hw⟩|hw|⟨q2,hq2,hw⟩⟩ <;>
        simp only [Prod.mk.injEq] at hw <;>
        first
          | (refine absurd hw.1 ?_
             simp
             done)
          | (obtain ⟨hk, hv⟩ := hw
             simp only [AttrKey.retrievalDocumentsId.injEq] at hk
             subst hk
             cases Option.some.inj (hid.symm.trans hs2)
             exact hv)
  · intro docs cfg j h q hsc
    constructor
    · rw [record_retrieval_documents_mem]
      exact ⟨j, h, Or.inr (Or.inr ⟨q, hsc, rfl⟩)⟩
    · intro w hw
      rw [record_retrieval_documents_mem] at hw
      rcases hw with ⟨j2,hj2,⟨s2,hs2,hw⟩|hw|⟨q2,hq2,hw⟩⟩ <;>
        simp only [Prod.mk.injEq] at hw <;>
        first
          | (refine absurd hw.1 ?_
             simp
             done)
          | (obtain ⟨hk, hv⟩ := hw
             simp only [AttrKey.retrievalDocumentsScore.injEq] at hk
             subst hk
             cases Option.some.inj (hsc.symm.trans hq2)
             exact hv)

/-- Witness for C4 under a configuration with every hide switch on: the
chain input MIME type, a reranker input-document id and a retrieval
document score are still bound exactly to their verbatim values. -/
theorem c4_metadata_never_redacted_witness :
    bindsExactly
      (ChainSpanBuilder.build { ChainSpanBuilder.new "c" with
        input_value := some "x"
        input_mime_type := some "text/plain"
        config := {
          hide_inputs := true
          hide_outputs := true
          hide_input_messages := true
          hide_output_messages := true
          hide_input_images := true
          hide_input_text := true
          hide_output_text := true
          hide_llm_invocation_parameters := true
          hide_embedding_vectors := true
          hide_embeddings_vectors := true
          hide_embeddings_text := true
          hide_prompts := true
          hide_choices := true
          base64_image_max_length := 32000
          emit_gen_ai_attributes := true } }).attrs
      .inputMimeType (.str "text/plain") ∧
    bindsExactly
      (RerankerSpanBuilder.build { RerankerSpanBuilder.new "ce" with
        input_documents := [{ id := some "doc1", content := "body", score := some 1 }]
        config := {
          hide_inputs := true
          hide_outputs := true
          hide_input_messages := true
          hide_output_messages := true
          hide_input_images := true
          hide_input_text := true
          hide_output_text := true
          hide_llm_invocation_parameters := true
          hide_embedding_vectors := true
          hide_embeddings_vectors := true
          hide_embeddings_text := true
          hide_prompts := true
          hide_choices := true
          base64_image_max_length := 32000
          emit_gen_ai_attributes := true } }).attrs
      (.rerankerInputDocumentsId 0) (.str "doc1") ∧
    bindsExactly
      (record_retrieval_documents [{ id := some "doc1", content := "body", score := some 1 }]
        {
          hide_inputs := true
          hide_outputs := true
          hide_input_messages := true
          hide_output_messages := true
          hide_input_images := true
          hide_input_text := true
          hide_output_text := true
          hide_llm_invocation_parameters := true
          hide_embedding_vectors := true
          hide_embeddings_vectors := true
          hide_embeddings_text := true
          hide_prompts := true
          hide_choices := true
          base64_image_max_length := 32000
          emit_gen_ai_attributes := true })
      (.retrievalDocumentsScore 0) (.float 1) := by
  refine ⟨?_, ?_, ?_⟩
  · exact c4_metadata_never_redacted.1
      { ChainSpanBuilder.new "c" with
        input_value := some "x"
        input_mime_type := some "text/plain"
        config := {
          hide_inputs := true
          hide_outputs := true
          hide_input_messages := true
          hide_output_messages := true
          hide_input_images := true
          hide_input_text := true
          hide_output_text := true
          hide_llm_invocation_parameters := true
          hide_embedding_vectors := true
          hide_embeddings_vectors := true
          hide_embeddings_text := true
          hide_prompts := true
          hide_choices := true
          base64_image_max_length := 32000
          emit_gen_ai_attributes := true } } "text/plain" rfl
  · exact c4_metadata_never_redacted.2.2.1
      { RerankerSpanBuilder.new "ce" with
        input_documents := [{ id := some "doc1", content := "body", score := some 1 }]
        config := {
          hide_inputs := true
          hide_outputs := true
          hide_input_messages := true
          hide_output_messages := true
          hide_input_images := true
          hide_input_text := true
          hide_output_text := true
          hide_llm_invocation_parameters := true
          hide_embedding_vectors := true
          hide_embeddings_vectors := true
          hide_embeddings_text := true
          hide_prompts := true
          hide_choices := true
          base64_image_max_length := 32000
          emit_gen_ai_attributes := true } } 0 (by decide) "doc1" rfl
  · exact c4_metadata_never_redacted.2.2.2.2.2.2.2
      [{ id := some "doc1", content := "body", score := some 1 }]
      {
        hide_inputs := true
        hide_outputs := true
        hide_input_messages := true
        hide_output_messages := true
        hide_input_images := true
        hide_input_text := true
        hide_output_text := true
        hide_llm_invocation_parameters := true
        hide_embedding_vectors := true
        hide_embeddings_vectors := true
        hide_embeddings_text := true
        hide_prompts := true
        hide_choices := true
        base64_image_max_length := 32000
        emit_gen_ai_attributes := true } 0 (by decide) 1 rfl

/-- C5 counterexample to the claim as stated: a Retriever builder with
top_k set finalizes to exactly the span-kind write alone, identical to the
build with top_k unset, so the set top_k field is silently dropped. -/
theorem c5_retriever_top_k_counterexample :
    (RetrieverSpanBuilder.build { RetrieverSpanBuilder.new "vector_search" with
      top_k := some 5 }).attrs = [(.openinferenceSpanKind, .str "RETRIEVER")] ∧
    (RetrieverSpanBuilder.build { RetrieverSpanBuilder.new "vector_search" with
      top_k := some 5 }).attrs =
    (RetrieverSpanBuilder.build (RetrieverSpanBuilder.new "vector_search")).attrs := by
  exact ⟨rfl, rfl⟩

/-- C5 amended: for every builder of the nine operation kinds, every
optional field that was set produces an attribute at finalize — the value
verbatim in the correct attribute type, or the redaction marker when the
content category is hidden — with two exceptions forced by the code: a
Retriever builder top_k is never emitted (see the counterexample), and the
LLM sampling parameters are emitted only as GenAI attributes, hence only
when emit_gen_ai_attributes is true. -/
theorem c5_set_fields_emit :
    (∀ (b : LlmSpanBuilder) (v : String),
      (.llmProvider, .str v) ∈ (LlmSpanBuilder.build { b with provider := some v }).attrs) ∧
    (∀ (b : LlmSpanBuilder) (v : String),
      (.llmSystem, .str v) ∈ (LlmSpanBuilder.build { b with system := some v }).attrs) ∧
    (∀ (b : LlmSpanBuilder) (v : String),
      (.llmInvocationParameters,
        .str (if b.config.hide_llm_invocation_parameters then REDACTED else v)) ∈
        (LlmSpanBuilder.build { b with invocation_parameters := some v }).attrs) ∧
    (∀ (b : LlmSpanBuilder) (v : String),
      (.inputValue, .str (if b.config.hide_inputs then REDACTED else v)) ∈
        (LlmSpanBuilder.build { b with input_value := some v }).attrs) ∧
    (∀ (b : LlmSpanBuilder) (v : String),
      (.outputValue, .str (if b.config.hide_outputs then REDACTED else v)) ∈
        (LlmSpanBuilder.build { b with output_value := some v }).attrs) ∧
    (∀ (b : LlmSpanBuilder) (j : Nat) (h : j < b.input_messages.length),
      (.llmInputMessagesRole j,
        .str (if b.config.should_hide_input_messages then REDACTED
          else (b.input_messages.get ⟨j, h⟩).1)) ∈ b.build.attrs ∧
      (.llmInputMessagesContent j,
        .str (if b.config.should_hide_input_messages || b.config.should_hide_input_text
          then REDACTED else (b.input_messages.get ⟨j, h⟩).2)) ∈ b.build.attrs) ∧
    (∀ (b : LlmSpanBuilder) (j : Nat) (h : j < b.tools.length),
      (.llmToolsJsonSchema j, .str (b.tools.get ⟨j, h⟩)) ∈ b.build.attrs) ∧
    (∀ (b : LlmSpanBuilder) (v : Rat), b.config.emit_gen_ai_attributes = true →
      (.genAiRequestTemperature, .float v) ∈
        (LlmSpanBuilder.build { b with temperature := some v }).attrs) ∧
    (∀ (b : LlmSpanBuilder) (v : Rat), b.config.emit_gen_ai_attributes = true →
      (.genAiRequestTopP, .float v) ∈
        (LlmSpanBuilder.build { b with top_p := some v }).attrs) ∧
    (∀ (b : LlmSpanBuilder) (v : Int), b.config.emit_gen_ai_attributes = true →
      (.genAiRequestTopK, .int v) ∈
        (LlmSpanBuilder.build { b with top_k := some v }).attrs) ∧
    (∀ (b : LlmSpanBuilder) (v : Int), b.config.emit_gen_ai_attributes = true →
      (.genAiRequestMaxTokens, .int v) ∈
        (LlmSpanBuilder.build { b with max_tokens := some v }).attrs) ∧
    (∀ (b : LlmSpanBuilder) (v : Rat), b.config.emit_gen_ai_attributes = true →
      (.genAiRequestFrequencyPenalty, .float v) ∈
        (LlmSpanBuilder.build { b with frequency_penalty := some v }).attrs) ∧
    (∀ (b : LlmSpanBuilder) (v : Rat), b.config.emit_gen_ai_attributes = true →
      (.genAiRequestPresencePenalty, .float v) ∈
        (LlmSpanBuilder.build { b with presence_penalty := some v }).attrs) ∧
    (∀ (b : EmbeddingSpanBuilder) (j : Nat) (h : j < b.texts.length),
      (.embeddingEmbeddingsText j,
        .str (if b.config.hide_embeddings_text then REDACTED else b.texts.get ⟨j, h⟩)) ∈
        b.build.attrs) ∧
    (∀ (b : EmbeddingSpanBuilder) (v : String),
      (.inputValue, .str (if b.config.hide_inputs then REDACTED else v)) ∈
        (EmbeddingSpanBuilder.build { b with input_value := some v }).attrs) ∧
    (∀ (b : ChainSpanBuilder) (v : String),
      (.inputValue, .str (if b.config.hide_inputs then REDACTED else v)) ∈
        (ChainSpanBuilder.build { b with input_value := some v }).attrs) ∧
    (∀ (b : ChainSpanBuilder) (v : String),
      (.inputMimeType, .str v) ∈
        (ChainSpanBuilder.build { b with input_mime_type := some v }).attrs) ∧
    (∀ (b : ChainSpanBuilder) (v : String),
      (.outputValue, .str (if b.config.hide_outputs then REDACTED else v)) ∈
        (ChainSpanBuilder.build { b with output_value := some v }).attrs) ∧
    (∀ (b : ChainSpanBuilder) (v : String),
      (.outputMimeType, .str v) ∈
        (ChainSpanBuilder.build { b with output_mime_type := some v }).attrs) ∧
    (∀ (b : ToolSpanBuilder) (v : String),
      (.toolDescription, .str v) ∈
        (ToolSpanBuilder.build { b with description := some v }).attrs) ∧
    (∀ (b : ToolSpanBuilder) (v : String),
      (.toolParameters, .str v) ∈
        (ToolSpanBuilder.build { b with parameters := some v }).attrs) ∧
    (∀ (b : ToolSpanBuilder) (v : String),
      (.inputValue, .str (if b.config.hide_inputs then REDACTED else v)) ∈
        (ToolSpanBuilder.build { b with input_value := some v }).attrs) ∧
    (∀ (b : ToolSpanBuilder) (v : String),
      (.outputValue, .str (if b.config.hide_outputs then REDACTED else v)) ∈
        (ToolSpanBuilder.build { b with output_value := some v }).attrs) ∧
    (∀ (b : RetrieverSpanBuilder) (v : String),
      (.inputValue, .str (if b.config.hide_inputs then REDACTED else v)) ∈
        (RetrieverSpanBuilder.build { b with query := some v }).attrs) ∧
    (∀ (b : AgentSpanBuilder) (v : String),
      (.inputValue, .str (if b.config.hide_inputs then REDACTED else v)) ∈
        (AgentSpanBuilder.build { b with input_value := some v }).attrs) ∧
    (∀ (b : AgentSpanBuilder) (v : String),
      (.outputValue, .str (if b.config.hide_outputs then REDACTED else v)) ∈
        (AgentSpanBuilder.build { b with output_value := some v }).attrs) ∧
    (∀ (b : RerankerSpanBuilder) (v : String),
      (.rerankerQuery, .str (if b.config.hide_inputs then REDACTED else v)) ∈
        (RerankerSpanBuilder.build { b with query := some v }).attrs) ∧
    (∀ (b : RerankerSpanBuilder) (v : Int),
      (.rerankerTopK, .int v) ∈
        (RerankerSpanBuilder.build { b with top_k := some v }).attrs) ∧
    (∀ (b : RerankerSpanBuilder) (j : Nat) (h : j < b.input_documents.length),
      (.rerankerInputDocumentsContent j,
        .str (if b.config.hide_inputs then REDACTED
          else (b.input_documents.get ⟨j, h⟩).content)) ∈ b.build.attrs ∧
      (∀ s, (b.input_documents.get ⟨j, h⟩).id = some s →
        (.rerankerInputDocumentsId j, .str s) ∈ b.build.attrs) ∧
      (∀ q, (b.input_documents.get ⟨j, h⟩).score = some q →
        (.rerankerInputDocumentsScore j, .float q) ∈ b.build.attrs)) ∧
    (∀ (b : GuardrailSpanBuilder) (v : String),
      (.inputValue, .str (if b.config.hide_inputs then REDACTED else v)) ∈
        (GuardrailSpanBuilder.build { b with input_value := some v }).attrs) ∧
    (∀ (b : GuardrailSpanBuilder) (v : String),
      (.outputValue, .str (if b.config.hide_outputs then REDACTED else v)) ∈
        (GuardrailSpanBuilder.build { b with output_value := some v }).attrs) ∧
    (∀ (b : EvaluatorSpanBuilder) (v : String),
      (.inputValue, .str (if b.config.hide_inputs then REDACTED else v)) ∈
        (EvaluatorSpanBuilder.build { b with input_value := some v }).attrs) ∧
    (∀ (b : EvaluatorSpanBuilder) (v : String),
      (.outputValue, .str (if b.config.hide_outputs then REDACTED else v)) ∈
        (EvaluatorSpanBuilder.build { b with output_value := some v }).attrs) := by
  refine ⟨?_, ?_, ?_, ?_, ?_, ?_, ?_, ?_, ?_, ?_, ?_, ?_, ?_, ?_, ?_, ?_, ?_, ?_, ?_,
    ?_, ?_, ?_, ?_, ?_, ?_, ?_, ?_, ?_, ?_, ?_, ?_, ?_, ?_⟩
  · intro b v
    exact (llm_build_mem _ _).mpr (Or.inr (Or.inr (Or.inl ⟨v, rfl, rfl⟩)))
  · intro b v
    exact (llm_build_mem _ _).mpr (Or.inr (Or.inr (Or.inr (Or.inl ⟨v, rfl, rfl⟩))))
  · intro b v
    exact (llm_build_mem _ _).mpr (Or.inr (Or.inr (Or.inr (Or.inr
      (Or.inl ⟨v, rfl, rfl⟩)))))
  · intro b v
    exact (llm_build_mem _ _).mpr (Or.inr (Or.inr (Or.inr (Or.inr (Or.inr
      (Or.inl ⟨v, rfl, rfl⟩))))))
  · intro b v
    exact (llm_build_mem _ _).mpr (Or.inr (Or.inr (Or.inr (Or.inr (Or.inr (Or.inr
      (Or.inl ⟨v, rfl, rfl⟩)))))))
  · intro b j h
    constructor
    · exact (llm_build_mem _ _).mpr (Or.inr (Or.inr (Or.inr (Or.inr (Or.inr (Or.inr
        (Or.inr (Or.inl ⟨j, h, Or.inl rfl⟩))))))))
    · exact (llm_build_mem _ _).mpr (Or.inr (Or.inr (Or.inr (Or.inr (Or.inr (Or.inr
        (Or.inr (Or.inl ⟨j, h, Or.inr rfl⟩))))))))
  · intro b j h
    exact (llm_build_mem _ _).mpr (Or.inr (Or.inr (Or.inr (Or.inr (Or.inr (Or.inr
      (Or.inr (Or.inr (Or.inl ⟨j, h, rfl⟩)))))))))
  · intro b v he
    exact (llm_build_mem _ _).mpr (Or.inr (Or.inr (Or.inr (Or.inr (Or.inr (Or.inr
      (Or.inr (Or.inr (Or.inr ⟨he, Or.inr (Or.inr (Or.inr
        (Or.inl ⟨v, rfl, rfl⟩)))⟩)))))))))
  · intro b v he
    exact (llm_build_mem _ _).mpr (Or.inr (Or.inr (Or.inr (Or.inr (Or.inr (Or.inr
      (Or.inr (Or.inr (Or.inr ⟨he, Or.inr (Or.inr (Or.inr (Or.inr
        (Or.inl ⟨v, rfl, rfl⟩))))⟩)))))))))
  · intro b v he
    exact (llm_build_mem _ _).mpr (Or.inr (Or.inr (Or.inr (Or.inr (Or.inr (Or.inr
      (Or.inr (Or.inr (Or.inr ⟨he, Or.inr (Or.inr (Or.inr (Or.inr (Or.inr
        (Or.inl ⟨v, rfl, rfl⟩)))))⟩)))))))))
  · intro b v he
    exact (llm_build_mem _ _).mpr (Or.inr (Or.inr (Or.inr (Or.inr (Or.inr (Or.inr
      (Or.inr (Or.inr (Or.inr ⟨he, Or.inr (Or.inr (Or.inr (Or.inr (Or.inr (Or.inr
        (Or.inl ⟨v, rfl, rfl⟩))))))⟩)))))))))
  · intro b v he
    exact (llm_build_mem _ _).mpr (Or.inr (Or.inr (Or.inr (Or.inr (Or.inr (Or.inr
      (Or.inr (Or.inr (Or.inr ⟨he, Or.inr (Or.inr (Or.inr (Or.inr (Or.inr (Or.inr
        (Or.inr (Or.inl ⟨v, rfl, rfl⟩)))))))⟩)))))))))
  · intro b v he
    exact (llm_build_mem _ _).mpr (Or.inr (Or.inr (Or.inr (Or.inr (Or.inr (Or.inr
      (Or.inr (Or.inr (Or.inr ⟨he, Or.inr (Or.inr (Or.inr (Or.inr (Or.inr (Or.inr
        (Or.inr (Or.inr ⟨v, rfl, rfl⟩)))))))⟩)))))))))
  · intro b j h
    exact (embedding_build_mem _ _).mpr (Or.inr (Or.inr (Or.inl ⟨j, h, rfl⟩)))
  · intro b v
    exact (embedding_build_mem _ _).mpr (Or.inr (Or.inr (Or.inr ⟨v, rfl, rfl⟩)))
  · intro b v
    exact (chain_build_mem _ _).mpr (Or.inr (Or.inl ⟨v, rfl, rfl⟩))
  · intro b v
    exact (chain_build_mem _ _).mpr (Or.inr (Or.inr (Or.inl ⟨v, rfl, rfl⟩)))
  · intro b v
    exact (chain_build_mem _ _).mpr (Or.inr (Or.inr (Or.inr (Or.inl ⟨v, rfl, rfl⟩))))
  · intro b v
    exact (chain_build_mem _ _).mpr (Or.inr (Or.inr (Or.inr (Or.inr ⟨v, rfl, rfl⟩))))
  · intro b v
    exact (tool_build_mem _ _).mpr (Or.inr (Or.inr (Or.inl ⟨v, rfl, rfl⟩)))
  · intro b v
    exact (tool_build_mem _ _).mpr (Or.inr (Or.inr (Or.inr (Or.inl ⟨v, rfl, rfl⟩))))
  · intro b v
    exact (tool_build_mem _ _).mpr (Or.inr (Or.inr (Or.inr (Or.inr
      (Or.inl ⟨v, rfl, rfl⟩)))))
  · intro b v
    exact (tool_build_mem _ _).mpr (Or.inr (Or.inr (Or.inr (Or.inr
      (Or.inr ⟨v, rfl, rfl⟩)))))
  · intro b v
    exact (retriever_build_mem _ _).mpr (Or.inr ⟨v, rfl, rfl⟩)
  · intro b v
    exact (agent_build_mem _ _).mpr (Or.inr (Or.inr (Or.inl ⟨v, rfl, rfl⟩)))
  · intro b v
    exact (agent_build_mem _ _).mpr (Or.inr (Or.inr (Or.inr ⟨v, rfl, rfl⟩)))
  · intro b v
    exact (reranker_build_mem _ _).mpr (Or.inr (Or.inr (Or.inl ⟨v, rfl, rfl⟩)))
  · intro b v
    exact (reranker_build_mem _ _).mpr (Or.inr (Or.inr (Or.inr (Or.inl ⟨v, rfl, rfl⟩))))
  · intro b j h
    refine ⟨?_, fun s hs => ?_, fun q hq => ?_⟩
    · exact (reranker_build_mem _ _).mpr (Or.inr (Or.inr (Or.inr (Or.inr
        ⟨j, h, Or.inr (Or.inl rfl)⟩))))
    · exact (reranker_build_mem _ _).mpr (Or.inr (Or.inr (Or.inr (Or.inr
        ⟨j, h, Or.inl ⟨s, hs, rfl⟩⟩))))
    · exact (reranker_build_mem _ _).mpr (Or.inr (Or.inr (Or.inr (Or.inr
        ⟨j, h, Or.inr (Or.inr ⟨q, hq, rfl⟩)⟩))))
  · intro b v
    exact (guardrail_build_mem _ _).mpr (Or.inr (Or.inl ⟨v, rfl, rfl⟩))
  · intro b v
    exact (guardrail_build_mem _ _).mpr (Or.inr (Or.inr ⟨v, rfl, rfl⟩))
  · intro b v
    exact (evaluator_build_mem _ _).mpr (Or.inr (Or.inl ⟨v, rfl, rfl⟩))
  · intro b v
    exact (evaluator_build_mem _ _).mpr (Or.inr (Or.inr ⟨v, rfl, rfl⟩))

/-- Witness for C5 at concrete builders under the default configuration:
a set temperature yields a GenAI attribute, an added input message yields
its role attribute, and a set retriever query yields the input value. -/
theorem c5_set_fields_emit_witness :
    (.genAiRequestTemperature, .float 1) ∈
      (LlmSpanBuilder.build { LlmSpanBuilder.new "gpt-4" with
        temperature := some 1 }).attrs ∧
    (.llmInputMessagesRole 0, .str "user") ∈
      (LlmSpanBuilder.build { LlmSpanBuilder.new "gpt-4" with
        input_messages := [("user", "hi")] }).attrs ∧
    (.inputValue, .str "q") ∈
      (RetrieverSpanBuilder.build { RetrieverSpanBuilder.new "r" with
        query := some "q" }).attrs := by
  refine ⟨?_, ?_, ?_⟩
  · exact c5_set_fields_emit.2.2.2.2.2.2.2.1 (LlmSpanBuilder.new "gpt-4") 1 rfl
  · exact (c5_set_fields_emit.2.2.2.2.2.1
      { LlmSpanBuilder.new "gpt-4" with input_messages := [("user", "hi")] }
      0 (by decide)).1
  · exact c5_set_fields_emit.2.2.2.2.2.2.2.2.2.2.2.2.2.2.2.2.2.2.2.2.2.2.2.1
      (RetrieverSpanBuilder.new "r") "q"
